import Mathlib

/-!
# ZED LiveLink bridge (`Source/Private/main.cpp`)

A shallow embedding of the acquisition-and-publish program: the pose
conversion `BuildUETransformFromZEDTransform`, the camera set-up `InitCamera`
with its argument parser `parseArgs`, and the polling loop of `main`.

Conventions of the embedding.

* Scalars (`float`/`double` members of the SDK and engine structures) are an
  arbitrary type `R`; the program only copies them, builds the literals `1`,
  `16`, `9` and divides once, so `R` carries `NatCast` and `Div` and nothing
  else is assumed about it.
* `std::string` is `String`; `string::find` and `sscanf` work on the list of
  characters of the string.
* The camera wrapper `ZEDCamera` and the LiveLink provider are collaborators
  whose code is not part of `main.cpp`.  The camera is a record of operations
  over an arbitrary state type `σ` (a test double); the value returned by
  `HasConnection()` on a tick is an input of that tick.
* Every statement writing to `cout` and every call made to the engine, the
  camera or the provider is recorded, in program order, as a `Call`; the two
  queries `IsValid()` and `HasConnection()` are not recorded, their results
  being inputs (`providerValid`, `TickInput.HasConnection`).
* `while (true)` has no exit, so a run is followed for a finite number of
  iterations, one per given input; the statements after the loop are never
  reached.
* `sscanf` follows ISO C for the two formats used (`%u`, `%d` and ordinary
  characters); numbers are stored as 32-bit words.
-/

namespace ZEDLiveLink

/-! ## SDK and engine data -/

/-- The values of `sl::ERROR_CODE` the program distinguishes by name; every
other enumerator of the SDK is `OTHER n`. -/
inductive ERROR_CODE where
  | SUCCESS
  | FAILURE
  | END_OF_SVOFILE_REACHED
  | OTHER (n : Nat)
  deriving DecidableEq, Repr

/-- The type `sl::INPUT_TYPE`. -/
inductive INPUT_TYPE where
  | USB
  | SVO
  | STREAM
  deriving DecidableEq, Repr

/-- The values of `sl::RESOLUTION` named in the program. -/
inductive RESOLUTION where
  | HD2K
  | HD1080
  | HD720
  | VGA
  deriving DecidableEq, Repr

/-- The value of `sl::COORDINATE_SYSTEM` named in the program, and the rest. -/
inductive COORDINATE_SYSTEM where
  | LEFT_HANDED_Z_UP
  | OTHER (n : Nat)
  deriving DecidableEq, Repr

/-- The value of `sl::UNIT` named in the program, and the rest. -/
inductive UNIT where
  | CENTIMETER
  | OTHER (n : Nat)
  deriving DecidableEq, Repr

/-- The value of `sl::DEPTH_MODE` named in the program, and the rest. -/
inductive DEPTH_MODE where
  | ULTRA
  | OTHER (n : Nat)
  deriving DecidableEq, Repr

/-- The value of `sl::REFERENCE_FRAME` named in the program, and the other one. -/
inductive REFERENCE_FRAME where
  | WORLD
  | CAMERA
  deriving DecidableEq, Repr

/-- The members of `SL_InitParameters` that `main.cpp` reads or writes. -/
structure SL_InitParameters where
  input_type : INPUT_TYPE
  resolution : RESOLUTION
  camera_fps : Int
  coordinate_system : COORDINATE_SYSTEM
  coordinate_unit : UNIT
  depth_mode : DEPTH_MODE
  sdk_verbose : Int
  deriving DecidableEq, Repr

/-- The members of `SL_PositionalTrackingParameters` that `main.cpp` writes. -/
structure SL_PositionalTrackingParameters where
  set_floor_as_origin : Bool
  enable_pose_smoothing : Bool
  deriving DecidableEq, Repr

/-- The member of `SL_RuntimeParameters` that `main.cpp` writes. -/
structure SL_RuntimeParameters where
  reference_frame : REFERENCE_FRAME
  deriving DecidableEq, Repr

/-- The type `SL_Vector3`. -/
structure SL_Vector3 (R : Type) where
  x : R
  y : R
  z : R

/-- The type `SL_Quaternion`. -/
structure SL_Quaternion (R : Type) where
  x : R
  y : R
  z : R
  w : R

/-- The members of `SL_PoseData` that `main.cpp` reads. -/
structure SL_PoseData (R : Type) where
  translation : SL_Vector3 R
  rotation : SL_Quaternion R

/-- The engine type `FVector`, built by `FVector(X, Y, Z)`. -/
structure FVector (R : Type) where
  X : R
  Y : R
  Z : R

/-- The engine type `FQuat`, built by `FQuat(X, Y, Z, W)`. -/
structure FQuat (R : Type) where
  X : R
  Y : R
  Z : R
  W : R

/-- The engine type `FTransform`, written through `SetTranslation`,
`SetRotation` and `SetScale3D`. -/
structure FTransform (R : Type) where
  Translation : FVector R
  Rotation : FQuat R
  Scale3D : FVector R

/-- An `FName` is identified with its text. -/
abbrev FName := String

/-- The type `ELiveLinkCameraProjectionMode`. -/
inductive ELiveLinkCameraProjectionMode where
  | Perspective
  | Orthographic
  deriving DecidableEq, Repr

/-- The members of `FLiveLinkCameraStaticData` that `main.cpp` writes. -/
structure FLiveLinkCameraStaticData where
  bIsAspectRatioSupported : Bool
  bIsFieldOfViewSupported : Bool
  bIsFocalLengthSupported : Bool
  bIsFocusDistanceSupported : Bool
  bIsProjectionModeSupported : Bool
  deriving DecidableEq, Repr

/-- The members of `FLiveLinkCameraFrameData` that `main.cpp` writes. -/
structure FLiveLinkCameraFrameData (R : Type) where
  AspectRatio : R
  ProjectionMode : ELiveLinkCameraProjectionMode
  Transform : FTransform R
  WorldTime : R

/-! ## Convert ZED transform to UE transform -/

/-- The function `BuildUETransformFromZEDTransform`. -/
def BuildUETransformFromZEDTransform {R : Type} [NatCast R] (pose : SL_PoseData R) :
    FTransform R :=
  let zedTranslation := pose.translation
  let UETranslation : FVector R := ⟨zedTranslation.x, zedTranslation.y, zedTranslation.z⟩
  { Translation := UETranslation
    Rotation := ⟨pose.rotation.x, pose.rotation.y, pose.rotation.z, pose.rotation.w⟩
    Scale3D := ⟨((1 : Nat) : R), ((1 : Nat) : R), ((1 : Nat) : R)⟩ }

/-! ## Text: `std::string`, `string::find`, `std::to_string`, `sscanf` -/

/-- The value `string::npos`: the result of a search that finds nothing. -/
def npos : Option Nat := none

/-- Search of `needle` in `hay` from the left; `pos` is the index of the head
of `hay` in the searched string. -/
def findFrom (needle : List Char) : List Char → Nat → Option Nat
  | [], pos => if needle.isPrefixOf [] then some pos else npos
  | c :: hay, pos =>
    if needle.isPrefixOf (c :: hay) then some pos else findFrom needle hay (pos + 1)

/-- The call `s.find(needle)`: the lowest index at which `needle` occurs in
`s`, or `npos`. -/
def string_find (s needle : String) : Option Nat :=
  findFrom needle.data s.data 0

/-- The call `std::to_string(n)` on an `unsigned int`: its decimal digits. -/
def to_string (n : Nat) : String := Nat.repr n

/-- The C predicate `isspace` in the "C" locale. -/
def isspace (c : Char) : Bool :=
  c = ' ' || c = '\t' || c = '\n' || c = '\x0b' || c = '\x0c' || c = '\r'

/-- The C predicate `isdigit`. -/
def isdigit (c : Char) : Bool :=
  '0'.toNat ≤ c.toNat && c.toNat ≤ '9'.toNat

/-- The value of a decimal digit. -/
def digitVal (c : Char) : Nat := c.toNat - '0'.toNat

/-- The white space a conversion skips before its input item. -/
def skipSpace : List Char → List Char
  | [] => []
  | c :: t => if isspace c then skipSpace t else c :: t

/-- The longest run of decimal digits at the head of the input, accumulated on
`acc`, and the input left after it. -/
def scanDigits (acc : Nat) : List Char → Nat × List Char
  | [] => (acc, [])
  | c :: t => if isdigit c then scanDigits (acc * 10 + digitVal c) t else (acc, c :: t)

/-- The outcome of one integer conversion of `sscanf`. -/
inductive ScanInt where
  | inputFailure
  | matchFailure
  | ok (word : Nat) (rest : List Char)
  deriving DecidableEq, Repr

/-- The 32-bit word an integer conversion stores for a sign and a magnitude.
A value outside the range of the receiving type is undefined in ISO C; the
embedding keeps the low 32 bits. -/
def word32 (neg : Bool) (magnitude : Nat) : Nat :=
  if neg then (2 ^ 32 - magnitude % 2 ^ 32) % 2 ^ 32 else magnitude % 2 ^ 32

/-- One `%u` or `%d` conversion: white space is skipped, then an optional sign
and a non-empty run of decimal digits is consumed.  Both conversions store into
an `unsigned int` in `parseArgs`, so both yield the stored 32-bit word. -/
def scanInt (s : List Char) : ScanInt :=
  match skipSpace s with
  | [] => .inputFailure
  | c :: t =>
    let neg : Bool := c = '-'
    let body := if c = '-' || c = '+' then t else c :: t
    match body with
    | [] => .matchFailure
    | d :: _ =>
      if isdigit d then
        let r := scanDigits 0 body
        .ok (word32 neg r.1) r.2
      else .matchFailure

/-- The directives of the two format strings of `parseArgs`. -/
inductive Directive where
  | u
  | d
  | lit (c : Char)
  deriving DecidableEq, Repr

/-- Reading of a format string made of `%u`, `%d` and ordinary characters other
than white space. -/
def parseFormat : List Char → List Directive
  | [] => []
  | '%' :: 'u' :: t => .u :: parseFormat t
  | '%' :: 'd' :: t => .d :: parseFormat t
  | c :: t => .lit c :: parseFormat t

/-- Execution of the directives on the input: the words assigned so far, in
order, and whether scanning stopped on an input failure (end of input). -/
def scanItems : List Directive → List Char → List Nat × Bool
  | [], _ => ([], false)
  | .lit _ :: _, [] => ([], true)
  | .lit c :: fmt, x :: t => if x = c then scanItems fmt t else ([], false)
  | .u :: fmt, s =>
    match scanInt s with
    | .inputFailure => ([], true)
    | .matchFailure => ([], false)
    | .ok w rest => let r := scanItems fmt rest; (w :: r.1, r.2)
  | .d :: fmt, s =>
    match scanInt s with
    | .inputFailure => ([], true)
    | .matchFailure => ([], false)
    | .ok w rest => let r := scanItems fmt rest; (w :: r.1, r.2)

/-- The C constant `EOF`. -/
def EOF : Int := -1

/-- The result of `sscanf`: its return value and the words assigned, in the
order of the pointer arguments. -/
structure Scanned where
  ret : Int
  vals : List Nat
  deriving DecidableEq, Repr

/-- The call `sscanf(str, format, ...)`: the number of items assigned, or `EOF`
when the input ends before the first conversion. -/
def sscanf (str format : String) : Scanned :=
  let r := scanItems (parseFormat format.data) str.data
  { ret := if r.1 = [] ∧ r.2 = true then EOF else (r.1.length : Int)
    vals := r.1 }

/-- The conversion of an `unsigned int` to `int` (two's complement). -/
def toInt32 (w : Nat) : Int :=
  if w % 2 ^ 32 < 2 ^ 31 then ((w % 2 ^ 32 : Nat) : Int) else ((w % 2 ^ 32 : Nat) : Int) - 2 ^ 32

/-! ## Argument parsing -/

/-- The variables `parseArgs` receives by reference, after the call, and the
lines it wrote to `cout`. -/
structure ParseArgsResult where
  param : SL_InitParameters
  pathSVO : String
  ip : String
  port : Int
  out : List String
  deriving DecidableEq, Repr

/-- The function `parseArgs`; `argc` is the length of `argv`. -/
def parseArgs (argv : List String) (param : SL_InitParameters) (pathSVO ip : String)
    (port : Int) : ParseArgsResult :=
  let argc := argv.length
  let argv1 := argv.getD 1 ""
  if argc > 1 ∧ string_find argv1 ".svo" ≠ npos then
    -- SVO input mode
    { param := { param with input_type := .SVO }
      pathSVO := argv1
      ip := ip
      port := port
      out := ["[Sample] Using SVO File input: " ++ argv1 ++ "\n"] }
  else if argc > 1 ∧ string_find argv1 ".svo" = npos then
    let arg := argv1
    let s5 := sscanf arg "%u.%u.%u.%u:%d"
    if s5.ret = 5 then
      -- Stream input mode - IP + port
      let a := s5.vals.getD 0 0
      let b := s5.vals.getD 1 0
      let c := s5.vals.getD 2 0
      let d := s5.vals.getD 3 0
      let p := s5.vals.getD 4 0
      let ip_adress := to_string a ++ "." ++ to_string b ++ "." ++ to_string c ++ "."
        ++ to_string d
      { param := { param with input_type := .STREAM }
        pathSVO := pathSVO
        ip := ip_adress
        port := toInt32 p
        out := ["[Sample] Using Stream input, IP : " ++ ip_adress ++ ", port : "
          ++ to_string p ++ "\n"] }
    else if (sscanf arg "%u.%u.%u.%u").ret = 4 then
      -- Stream input mode - IP only
      { param := { param with input_type := .STREAM }
        pathSVO := pathSVO
        ip := argv1
        port := port
        out := ["[Sample] Using Stream input, IP : " ++ argv1 ++ "\n"] }
    else if string_find arg "HD2K" ≠ npos then
      { param := { param with resolution := .HD2K }
        pathSVO := pathSVO, ip := ip, port := port
        out := ["[Sample] Using Camera in resolution HD2K\n"] }
    else if string_find arg "HD1080" ≠ npos then
      { param := { param with resolution := .HD1080 }
        pathSVO := pathSVO, ip := ip, port := port
        out := ["[Sample] Using Camera in resolution HD1080\n"] }
    else if string_find arg "HD720" ≠ npos then
      { param := { param with resolution := .HD720 }
        pathSVO := pathSVO, ip := ip, port := port
        out := ["[Sample] Using Camera in resolution HD720\n"] }
    else if string_find arg "VGA" ≠ npos then
      { param := { param with resolution := .VGA }
        pathSVO := pathSVO, ip := ip, port := port
        out := ["[Sample] Using Camera in resolution VGA\n"] }
    else
      { param := param, pathSVO := pathSVO, ip := ip, port := port, out := [] }
  else
    { param := param, pathSVO := pathSVO, ip := ip, port := port, out := [] }

/-! ## Collaborators and the record of calls -/

/-- One entry of the record of a run: a statement writing to `cout`, or a call
to the engine, to the camera wrapper or to the LiveLink provider, with its
arguments. -/
inductive Call (R : Type) where
  /-- A statement `cout << ...;` and the text it writes. -/
  | cout (text : String)
  /-- The statement `cout << "Error " << e << ", exit program.\n";`. -/
  | coutErrorExit (e : ERROR_CODE)
  | LibInit
  | CreateLiveLinkProvider (name : String)
  | CreateCamera (id : Int) (verbose : Bool)
  | Open (init_params : SL_InitParameters) (pathSVO ip : String) (port : Int)
  | GetSerialNumber
  | EnableTracking (tracking_param : SL_PositionalTrackingParameters)
  | Grab (rt_params : SL_RuntimeParameters)
  | GetPosition (reference_frame : REFERENCE_FRAME)
  | setSVOPosition (frame : Int)
  | Seconds
  | DisableTracking
  | Close
  | UpdateSubjectStaticData (SubjectName : FName) (StaticData : FLiveLinkCameraStaticData)
  | UpdateSubjectFrameData (SubjectName : FName) (FrameData : FLiveLinkCameraFrameData R)

/-- Recogniser of a `Grab` call. -/
def Call.isGrab {R : Type} : Call R → Bool
  | .Grab _ => true
  | _ => false

/-- Recogniser of a `setSVOPosition` call. -/
def Call.isSetSVOPosition {R : Type} : Call R → Bool
  | .setSVOPosition _ => true
  | _ => false

/-- Recogniser of a `GetPosition` call. -/
def Call.isGetPosition {R : Type} : Call R → Bool
  | .GetPosition _ => true
  | _ => false

/-- Recogniser of an `UpdateSubjectFrameData` call (a frame sample published). -/
def Call.isFrameData {R : Type} : Call R → Bool
  | .UpdateSubjectFrameData _ _ => true
  | _ => false

/-- Recogniser of an `UpdateSubjectStaticData` call (a static descriptor
published). -/
def Call.isStaticData {R : Type} : Call R → Bool
  | .UpdateSubjectStaticData _ _ => true
  | _ => false

/-- Recogniser of a `CreateCamera` call. -/
def Call.isCreateCamera {R : Type} : Call R → Bool
  | .CreateCamera _ _ => true
  | _ => false

/-- Recogniser of an `Open` call. -/
def Call.isOpen {R : Type} : Call R → Bool
  | .Open _ _ _ _ => true
  | _ => false

/-- Recogniser of an `EnableTracking` call. -/
def Call.isEnableTracking {R : Type} : Call R → Bool
  | .EnableTracking _ => true
  | _ => false

/-- Recogniser of a statement writing to `cout`. -/
def Call.isCout {R : Type} : Call R → Bool
  | .cout _ => true
  | .coutErrorExit _ => true
  | _ => false

/-- The first line of the "connected" event of the loop. -/
def connectedText : String := "ZEDLiveLink is connected \n"

/-- Recogniser of the "connected" event: the statement writing
`connectedText`. -/
def Call.isConnectedEvent {R : Type} : Call R → Bool
  | .cout text => text = connectedText
  | _ => false

/-- The operations of the camera wrapper `ZEDCamera` that `main.cpp` calls, as
functions of the state `σ` of the camera.  Each returns what the call returns
and the state after the call. -/
structure ZEDCamera (σ R : Type) where
  CreateCamera : Int → Bool → σ → Bool × σ
  Open : SL_InitParameters → String → String → Int → σ → ERROR_CODE × σ
  GetSerialNumber : σ → Int × σ
  EnableTracking : SL_PositionalTrackingParameters → σ → ERROR_CODE × σ
  Grab : SL_RuntimeParameters → σ → ERROR_CODE × σ
  GetPosition : REFERENCE_FRAME → σ → SL_PoseData R × σ
  setSVOPosition : Int → σ → σ

/-- Modelled from the spec: the input type held by a default-constructed
`SL_InitParameters` (declared in `ZEDStructs.h`, which is not among the
sources); the spec names the attached live sensor as the default source. -/
def defaultInputType : INPUT_TYPE := .USB

/-- The text of a default-constructed `FName`, held by
`StreamedCamera.SubjectName` until `InitCamera` assigns it. -/
def NAME_None : FName := "None"

/-- The constant `EXIT_FAILURE`. -/
def EXIT_FAILURE : Int := 1

/-- The constant `EXIT_SUCCESS`. -/
def EXIT_SUCCESS : Int := 0

/-! ## Camera set-up -/

/-- What `InitCamera` leaves behind: its return value, the global
`StreamedCamera` (subject name and camera state) and the calls made. -/
structure InitResult (σ R : Type) where
  err : ERROR_CODE
  SubjectName : FName
  Cam : σ
  calls : List (Call R)

/-- The function `InitCamera`; `zed` is the state of the camera object made by
`new ZEDCamera()`. -/
def InitCamera {σ R : Type} (Z : ZEDCamera σ R) (zed : σ) (argv : List String) :
    InitResult σ R :=
  let pathSVO := ""
  let ip := ""
  let port : Int := 30000
  let created := Z.CreateCamera 0 true zed
  if !created.1 then
    { err := .FAILURE, SubjectName := NAME_None, Cam := created.2
      calls := [.CreateCamera 0 true, .cout " ERROR :Create cam\n"] }
  else
    let init_params : SL_InitParameters :=
      { input_type := defaultInputType
        resolution := .HD1080
        camera_fps := 30
        coordinate_system := .LEFT_HANDED_Z_UP
        coordinate_unit := .CENTIMETER
        depth_mode := .ULTRA
        sdk_verbose := 1 }
    let parsed := parseArgs argv init_params pathSVO ip port
    let opened := Z.Open parsed.param parsed.pathSVO parsed.ip parsed.port created.2
    let calls1 : List (Call R) :=
      [.CreateCamera 0 true] ++ parsed.out.map .cout
        ++ [.Open parsed.param parsed.pathSVO parsed.ip parsed.port]
    if opened.1 ≠ .SUCCESS then
      { err := opened.1, SubjectName := NAME_None, Cam := opened.2
        calls := calls1 ++ [.cout "ERROR : Open\n"] }
    else
      let serial := Z.GetSerialNumber opened.2
      let SubjectName : FName := toString serial.1
      let tracking_param : SL_PositionalTrackingParameters :=
        { set_floor_as_origin := true, enable_pose_smoothing := true }
      let tracked := Z.EnableTracking tracking_param serial.2
      let calls2 := calls1 ++ [.GetSerialNumber, .EnableTracking tracking_param]
      if tracked.1 ≠ .SUCCESS then
        { err := tracked.1, SubjectName := SubjectName, Cam := tracked.2
          calls := calls2 ++ [.cout " ERROR : Enable Tracking\n"] }
      else
        { err := tracked.1, SubjectName := SubjectName, Cam := tracked.2, calls := calls2 }

/-! ## Publishing -/

/-- The function `UpdateCameraStaticData`: the call it makes. -/
def UpdateCameraStaticData {R : Type} (SubjectName : FName) : List (Call R) :=
  let CameraData : FLiveLinkCameraStaticData :=
    { bIsAspectRatioSupported := true
      bIsFieldOfViewSupported := true
      bIsFocalLengthSupported := false
      bIsFocusDistanceSupported := false
      bIsProjectionModeSupported := true }
  [.UpdateSubjectStaticData SubjectName CameraData]

/-- The function `UpdateCameraFrameData`: the camera state after it and the
calls it makes; `now` is what `FPlatformTime::Seconds()` returns. -/
def UpdateCameraFrameData {σ R : Type} [NatCast R] [Div R] (Z : ZEDCamera σ R)
    (SubjectName : FName) (now : R) (zed : σ) : σ × List (Call R) :=
  let got := Z.GetPosition .WORLD zed
  let Pose := BuildUETransformFromZEDTransform got.1
  let CameraData : FLiveLinkCameraFrameData R :=
    { AspectRatio := ((16 : Nat) : R) / ((9 : Nat) : R)
      ProjectionMode := .Perspective
      Transform := Pose
      WorldTime := now }
  (got.2, [.GetPosition .WORLD, .Seconds, .UpdateSubjectFrameData SubjectName CameraData])

/-! ## The loop of `main` -/

/-- What one iteration of the loop reads from outside the camera: the value
returned by `LiveLinkProvider->HasConnection()`, and the value
`FPlatformTime::Seconds()` returns if the iteration asks for it. -/
structure TickInput (R : Type) where
  HasConnection : Bool
  Seconds : R

/-- The variables the loop carries from one iteration to the next: the global
`IsConnected` and the state of the camera `StreamedCamera.Cam`. -/
structure LoopState (σ : Type) where
  IsConnected : Bool
  Cam : σ

/-- One iteration of the body of `while (true)` in `main`: the state after it
and the calls it makes, in order. -/
def tick {σ R : Type} [NatCast R] [Div R] (Z : ZEDCamera σ R) (SubjectName : FName)
    (inp : TickInput R) (s : LoopState σ) : LoopState σ × List (Call R) :=
  if inp.HasConnection then
    let shown : Bool × List (Call R) :=
      if !s.IsConnected then
        (true, [.cout connectedText, .cout ("ZED Camera added : " ++ SubjectName ++ "\n")])
      else (s.IsConnected, [])
    -- Grab
    let rt_params : SL_RuntimeParameters := { reference_frame := .WORLD }
    let grabbed := Z.Grab rt_params s.Cam
    let err := grabbed.1
    if err = .SUCCESS then
      let updated := UpdateCameraFrameData Z SubjectName inp.Seconds grabbed.2
      ({ IsConnected := shown.1, Cam := updated.1 },
        shown.2 ++ [.Grab rt_params] ++ updated.2)
    else if err = .END_OF_SVOFILE_REACHED then
      ({ IsConnected := shown.1, Cam := Z.setSVOPosition 0 grabbed.2 },
        shown.2 ++ [.Grab rt_params, .cout "End of SVO reached \n", .setSVOPosition 0])
    else
      ({ IsConnected := shown.1, Cam := grabbed.2 },
        shown.2 ++ [.Grab rt_params, .cout "Grab Failed \n"])
  else if s.IsConnected = true then
    ({ IsConnected := false, Cam := s.Cam }, [.cout "Source ZED removed\n"])
  else
    (s, [])

/-- The first `inputs.length` iterations of the loop: the state after them and,
for each iteration in order, the calls it made. -/
def runLoop {σ R : Type} [NatCast R] [Div R] (Z : ZEDCamera σ R) (SubjectName : FName) :
    List (TickInput R) → LoopState σ → LoopState σ × List (List (Call R))
  | [], s => (s, [])
  | inp :: rest, s =>
    let r := tick Z SubjectName inp s
    let rs := runLoop Z SubjectName rest r.1
    (rs.1, r.2 :: rs.2)

/-- Where `main` stands after a finite number of loop iterations. -/
inductive Status where
  /-- The statement `return` was executed with this value. -/
  | returned (code : Int)
  /-- Control is at the head of `while (true)`. -/
  | inLoop
  /-- The null `LiveLinkProvider` was dereferenced by the loop. -/
  | crashed
  deriving DecidableEq, Repr

/-- A run of `main` observed for a finite number of loop iterations. -/
structure MainRun (σ R : Type) where
  status : Status
  IsConnected : Bool
  SubjectName : FName
  Cam : σ
  /-- The calls made before the loop. -/
  startup : List (Call R)
  /-- The calls made by each iteration of the loop. -/
  ticks : List (List (Call R))

/-- All the calls of a run, in order. -/
def MainRun.calls {σ R : Type} (r : MainRun σ R) : List (Call R) :=
  r.startup ++ r.ticks.flatten

/-- The function `main`, followed for the iterations whose inputs are given.
`providerValid` is `LiveLinkProvider.IsValid()` after `CreateLiveLinkProvider`,
`zed` the state of the camera object made by `new ZEDCamera()`. -/
def main {σ R : Type} [NatCast R] [Div R] (Z : ZEDCamera σ R) (zed : σ)
    (providerValid : Bool) (argv : List String) (inputs : List (TickInput R)) :
    MainRun σ R :=
  let calls0 : List (Call R) :=
    [.cout "Starting ZEDLiveLink tool\n", .cout "Opening camera...\n", .LibInit,
      .CreateLiveLinkProvider "ZED"]
  -- Create camera
  let init := InitCamera Z zed argv
  let e := init.err
  if e ≠ .SUCCESS then
    { status := .returned EXIT_FAILURE, IsConnected := false
      SubjectName := init.SubjectName, Cam := init.Cam
      startup := calls0 ++ init.calls ++ [.coutErrorExit e], ticks := [] }
  else
    let calls1 := calls0 ++ init.calls ++ [.cout "Waiting for connection...\n"]
    -- Update static camera data.
    let calls2 :=
      if providerValid then calls1 ++ UpdateCameraStaticData init.SubjectName else calls1
    -- Loop
    if providerValid then
      let r := runLoop Z init.SubjectName inputs { IsConnected := false, Cam := init.Cam }
      { status := .inLoop, IsConnected := r.1.IsConnected
        SubjectName := init.SubjectName, Cam := r.1.Cam
        startup := calls2, ticks := r.2 }
    else
      { status := if inputs.isEmpty then .inLoop else .crashed
        IsConnected := false, SubjectName := init.SubjectName, Cam := init.Cam
        startup := calls2, ticks := [] }

/-! ## A recorded source, for the end-of-recording property -/

/-- The state of a recorded source: the index of the next frame to grab and
the pose of the frame grabbed last. -/
structure SvoState (R : Type) where
  position : Nat
  pose : SL_PoseData R

/-- Modelled from the spec: a camera that plays a recording of the frames
`frames` (the code of `ZEDCamera` is not among the sources).  `Grab` at a
position below the number of frames succeeds, makes that frame current and
advances; `Grab` at the end reports `END_OF_SVOFILE_REACHED`;
`setSVOPosition` moves the position; `GetPosition` gives the pose of the
current frame.  Creation, opening and tracking succeed. -/
def svoCamera {R : Type} (frames : List (SL_PoseData R)) (serial : Int) :
    ZEDCamera (SvoState R) R where
  CreateCamera := fun _ _ c => (true, c)
  Open := fun _ _ _ _ c => (.SUCCESS, c)
  GetSerialNumber := fun c => (serial, c)
  EnableTracking := fun _ c => (.SUCCESS, c)
  Grab := fun _ c =>
    match frames[c.position]? with
    | some f => (.SUCCESS, { position := c.position + 1, pose := f })
    | none => (.END_OF_SVOFILE_REACHED, c)
  GetPosition := fun _ c => (c.pose, c)
  setSVOPosition := fun k c => { c with position := k.toNat }

/-- The two lines a tick with a connection writes first when `IsConnected` was
not yet set (the "connected" event), and nothing when it was. -/
def connectedLines {R : Type} (IsConnected : Bool) (SubjectName : FName) : List (Call R) :=
  if IsConnected then []
  else [.cout connectedText, .cout ("ZED Camera added : " ++ SubjectName ++ "\n")]

/-- The frame sample `UpdateCameraFrameData` builds from a pose and a time. -/
def frameSample {R : Type} [NatCast R] [Div R] (pose : SL_PoseData R) (now : R) :
    FLiveLinkCameraFrameData R :=
  { AspectRatio := ((16 : Nat) : R) / ((9 : Nat) : R)
    ProjectionMode := .Perspective
    Transform := BuildUETransformFromZEDTransform pose
    WorldTime := now }

/-- The number of changes from `false` to `true` in a sequence of observed
connection values, `prev` being the value before the first. -/
def risingEdges : Bool → List Bool → Nat
  | _, [] => 0
  | prev, b :: rest => (if !prev && b then 1 else 0) + risingEdges b rest

/-! ## Observations on `InitCamera` and concrete collaborators -/

/-- The parameters `InitCamera` passes to `parseArgs`. -/
def initParamsAtParse : SL_InitParameters :=
  { input_type := defaultInputType
    resolution := .HD1080
    camera_fps := 30
    coordinate_system := .LEFT_HANDED_Z_UP
    coordinate_unit := .CENTIMETER
    depth_mode := .ULTRA
    sdk_verbose := 1 }

/-- What `CreateCamera(0, true)` returns in `InitCamera`, and the camera after. -/
def createOutcome {σ R : Type} (Z : ZEDCamera σ R) (zed : σ) : Bool × σ :=
  Z.CreateCamera 0 true zed

/-- What `Open` returns in `InitCamera` when it is reached, and the camera
after. -/
def openOutcome {σ R : Type} (Z : ZEDCamera σ R) (zed : σ) (argv : List String) :
    ERROR_CODE × σ :=
  Z.Open (parseArgs argv initParamsAtParse "" "" 30000).param
    (parseArgs argv initParamsAtParse "" "" 30000).pathSVO
    (parseArgs argv initParamsAtParse "" "" 30000).ip
    (parseArgs argv initParamsAtParse "" "" 30000).port (createOutcome Z zed).2

/-- What `EnableTracking` returns in `InitCamera` when it is reached, and the
camera after. -/
def trackingOutcome {σ R : Type} (Z : ZEDCamera σ R) (zed : σ) (argv : List String) :
    ERROR_CODE × σ :=
  Z.EnableTracking { set_floor_as_origin := true, enable_pose_smoothing := true }
    (Z.GetSerialNumber (openOutcome Z zed argv).2).2

/-- A camera whose creation, opening and tracking return the given values and
whose successive `Grab` calls return the codes listed in its state (`SUCCESS`
once the list is used up); its pose is always `pose`. -/
def scriptedCamera {R : Type} (created : Bool) (opened tracked : ERROR_CODE)
    (pose : SL_PoseData R) : ZEDCamera (List ERROR_CODE) R where
  CreateCamera := fun _ _ c => (created, c)
  Open := fun _ _ _ _ c => (opened, c)
  GetSerialNumber := fun c => (1234, c)
  EnableTracking := fun _ c => (tracked, c)
  Grab := fun _ c =>
    match c with
    | [] => (.SUCCESS, [])
    | e :: rest => (e, rest)
  GetPosition := fun _ c => (pose, c)
  setSVOPosition := fun _ c => c

/-- A pose with whole-number components. -/
def samplePose (k : Int) : SL_PoseData Int :=
  { translation := ⟨k, k + 1, k + 2⟩, rotation := ⟨0, 0, 0, 1⟩ }

/-- A recording of two frames. -/
def sampleFrames : List (SL_PoseData Int) := [samplePose 10, samplePose 20]

/-- The ten decimal digit characters. -/
def digitChars : List Char := ['0', '1', '2', '3', '4', '5', '6', '7', '8', '9']

/-- The value of a run of decimal digits read from the left, starting from
`acc`. -/
def digitsValue (acc : Nat) (ds : List Char) : Nat :=
  ds.foldl (fun a c => a * 10 + digitVal c) acc

/-- The decimal text `a.b.c.d`. -/
def dottedQuad (a b c d : Nat) : String :=
  to_string a ++ "." ++ to_string b ++ "." ++ to_string c ++ "." ++ to_string d

/-- The decimal text `a.b.c.d:p`. -/
def dottedQuadPort (a b c d p : Nat) : String :=
  dottedQuad a b c d ++ ":" ++ to_string p

/-! ## Notions of the specification used to state the claims on arguments -/

/-- The text left after a non-empty run of decimal digits at the head of the
text, or `none` when the text does not begin with a digit. -/
def dropDigitRun : List Char → Option (List Char)
  | [] => none
  | c :: t => if isdigit c then some (scanDigits 0 (c :: t)).2 else none

/-- The specification's "dotted quad with optional `:port`": four runs of
decimal digits separated by dots, alone or followed by a colon and one more
run of digits. -/
def isDottedQuadOptPort (s : String) : Bool :=
  match dropDigitRun s.data with
  | some ('.' :: r1) =>
    match dropDigitRun r1 with
    | some ('.' :: r2) =>
      match dropDigitRun r2 with
      | some ('.' :: r3) =>
        match dropDigitRun r3 with
        | some [] => true
        | some (':' :: r4) => dropDigitRun r4 == some []
        | _ => false
      | _ => false
    | _ => false
  | _ => false

/-- The four resolution tokens of the specification. -/
def resolutionTokens : List String := ["HD2K", "HD1080", "HD720", "VGA"]

/-- The number of conversions (`%u`, `%d`) among the directives of a format. -/
def conversions : List Directive → Nat
  | [] => 0
  | .lit _ :: fmt => conversions fmt
  | .u :: fmt => conversions fmt + 1
  | .d :: fmt => conversions fmt + 1

/-- The line of the "disconnected" event of the loop. -/
def disconnectedText : String := "Source ZED removed\n"

/-- Recogniser of the "disconnected" event: the statement writing
`disconnectedText`. -/
def Call.isDisconnectedEvent {R : Type} : Call R → Bool
  | .cout text => text = disconnectedText
  | _ => false

/-- Recogniser of a `DisableTracking` call. -/
def Call.isDisableTracking {R : Type} : Call R → Bool
  | .DisableTracking => true
  | _ => false

/-- Recogniser of a `Close` call. -/
def Call.isClose {R : Type} : Call R → Bool
  | .Close => true
  | _ => false

/-- The number of changes from `true` to `false` in a sequence of observed
connection values, `prev` being the value before the first. -/
def fallingEdges : Bool → List Bool → Nat
  | _, [] => 0
  | prev, b :: rest => (if prev && !b then 1 else 0) + fallingEdges b rest

/-! ## Theorems -/

/-- The lines of the "connected" event hold no call to a collaborator. -/
theorem connectedLines_isCout {R : Type} (b : Bool) (SubjectName : FName) :
    ∀ c ∈ (connectedLines b SubjectName : List (Call R)), c.isCout = true := by
  cases b <;> simp [connectedLines, Call.isCout]

/-- The second line of the "connected" event is not its first line. -/
theorem added_ne_connectedText (SubjectName : FName) :
    ("ZED Camera added : " ++ SubjectName ++ "\n") ≠ connectedText := by
  intro h
  have h2 := congrArg String.data h
  simp [connectedText, String.data_append] at h2

/-- The "connected" event is counted once in the lines written when
`IsConnected` was not set, and not at all when it was. -/
theorem connectedLines_countP_isConnectedEvent {R : Type} (b : Bool) (SubjectName : FName) :
    (connectedLines b SubjectName : List (Call R)).countP Call.isConnectedEvent =
      if b then 0 else 1 := by
  cases b <;>
    simp [connectedLines, Call.isConnectedEvent, List.countP_cons, added_ne_connectedText]

section Loop

variable {σ R : Type} [NatCast R] [Div R]

/-- A tick without a connection only clears `IsConnected`, writing one line if
it was set. -/
theorem tick_disconnected (Z : ZEDCamera σ R) (SubjectName : FName) (inp : TickInput R)
    (s : LoopState σ) (h : inp.HasConnection = false) :
    tick Z SubjectName inp s =
      (if s.IsConnected = true then
        ({ IsConnected := false, Cam := s.Cam }, [Call.cout "Source ZED removed\n"])
      else (s, [])) := by
  simp [tick, h]

/-- A tick with a connection whose `Grab` succeeds reads the pose and
publishes one frame sample. -/
theorem tick_success (Z : ZEDCamera σ R) (SubjectName : FName) (inp : TickInput R)
    (s : LoopState σ) (h : inp.HasConnection = true)
    (hg : (Z.Grab { reference_frame := .WORLD } s.Cam).1 = .SUCCESS) :
    tick Z SubjectName inp s =
      ({ IsConnected := true
         Cam := (Z.GetPosition .WORLD (Z.Grab { reference_frame := .WORLD } s.Cam).2).2 },
        connectedLines s.IsConnected SubjectName ++
          [.Grab { reference_frame := .WORLD }, .GetPosition .WORLD, .Seconds,
            .UpdateSubjectFrameData SubjectName
              (frameSample
                (Z.GetPosition .WORLD (Z.Grab { reference_frame := .WORLD } s.Cam).2).1
                inp.Seconds)]) := by
  cases hc : s.IsConnected <;>
    simp [tick, h, hg, hc, UpdateCameraFrameData, connectedLines, frameSample]

/-- A tick with a connection whose `Grab` reports the end of the recording
seeks back to frame zero and publishes nothing. -/
theorem tick_end_of_svo (Z : ZEDCamera σ R) (SubjectName : FName) (inp : TickInput R)
    (s : LoopState σ) (h : inp.HasConnection = true)
    (hg : (Z.Grab { reference_frame := .WORLD } s.Cam).1 = .END_OF_SVOFILE_REACHED) :
    tick Z SubjectName inp s =
      ({ IsConnected := true
         Cam := Z.setSVOPosition 0 (Z.Grab { reference_frame := .WORLD } s.Cam).2 },
        connectedLines s.IsConnected SubjectName ++
          [.Grab { reference_frame := .WORLD }, .cout "End of SVO reached \n",
            .setSVOPosition 0]) := by
  cases hc : s.IsConnected <;> simp [tick, h, hg, hc, connectedLines]

/-- A tick with a connection whose `Grab` fails otherwise only writes a line. -/
theorem tick_grab_failed (Z : ZEDCamera σ R) (SubjectName : FName) (inp : TickInput R)
    (s : LoopState σ) (h : inp.HasConnection = true)
    (h1 : (Z.Grab { reference_frame := .WORLD } s.Cam).1 ≠ .SUCCESS)
    (h2 : (Z.Grab { reference_frame := .WORLD } s.Cam).1 ≠ .END_OF_SVOFILE_REACHED) :
    tick Z SubjectName inp s =
      ({ IsConnected := true, Cam := (Z.Grab { reference_frame := .WORLD } s.Cam).2 },
        connectedLines s.IsConnected SubjectName ++
          [.Grab { reference_frame := .WORLD }, .cout "Grab Failed \n"]) := by
  cases hc : s.IsConnected <;> simp [tick, h, h1, h2, hc, connectedLines]

/-- A tick with a connection makes exactly one `Grab` call. -/
theorem tick_countP_isGrab_connected (Z : ZEDCamera σ R) (SubjectName : FName)
    (inp : TickInput R) (s : LoopState σ) (h : inp.HasConnection = true) :
    (tick Z SubjectName inp s).2.countP Call.isGrab = 1 := by
  have hl : (connectedLines s.IsConnected SubjectName : List (Call R)).countP Call.isGrab = 0 := by
    cases s.IsConnected <;> simp [connectedLines, Call.isGrab]
  by_cases h1 : (Z.Grab { reference_frame := .WORLD } s.Cam).1 = .SUCCESS
  · simp [tick_success Z SubjectName inp s h h1, List.countP_append, hl, List.countP_cons,
      Call.isGrab]
  · by_cases h2 : (Z.Grab { reference_frame := .WORLD } s.Cam).1 = .END_OF_SVOFILE_REACHED
    · simp [tick_end_of_svo Z SubjectName inp s h h2, List.countP_append, hl,
        List.countP_cons, Call.isGrab]
    · simp [tick_grab_failed Z SubjectName inp s h h1 h2, List.countP_append, hl,
        List.countP_cons, Call.isGrab]

/-- A tick publishes at most one frame sample. -/
theorem tick_countP_isFrameData_le_one (Z : ZEDCamera σ R) (SubjectName : FName)
    (inp : TickInput R) (s : LoopState σ) :
    (tick Z SubjectName inp s).2.countP Call.isFrameData ≤ 1 := by
  have hl : (connectedLines s.IsConnected SubjectName : List (Call R)).countP
      Call.isFrameData = 0 := by
    cases s.IsConnected <;> simp [connectedLines, Call.isFrameData]
  cases h : inp.HasConnection
  · rw [tick_disconnected Z SubjectName inp s h]
    split_ifs <;> simp [Call.isFrameData]
  · by_cases h1 : (Z.Grab { reference_frame := .WORLD } s.Cam).1 = .SUCCESS
    · simp [tick_success Z SubjectName inp s h h1, List.countP_append, hl, List.countP_cons,
        Call.isFrameData]
    · by_cases h2 : (Z.Grab { reference_frame := .WORLD } s.Cam).1 = .END_OF_SVOFILE_REACHED
      · simp [tick_end_of_svo Z SubjectName inp s h h2, List.countP_append, hl,
          List.countP_cons, Call.isFrameData]
      · simp [tick_grab_failed Z SubjectName inp s h h1 h2, List.countP_append, hl,
          List.countP_cons, Call.isFrameData]

/-- A tick publishes at most as many frame samples as it makes `Grab` calls. -/
theorem tick_countP_isFrameData_le (Z : ZEDCamera σ R) (SubjectName : FName)
    (inp : TickInput R) (s : LoopState σ) :
    (tick Z SubjectName inp s).2.countP Call.isFrameData ≤
      (tick Z SubjectName inp s).2.countP Call.isGrab := by
  cases h : inp.HasConnection
  · rw [tick_disconnected Z SubjectName inp s h]
    split_ifs <;> simp [Call.isFrameData]
  · rw [tick_countP_isGrab_connected Z SubjectName inp s h]
    exact tick_countP_isFrameData_le_one Z SubjectName inp s

/-- The loop runs one list of calls per input. -/
theorem runLoop_length (Z : ZEDCamera σ R) (SubjectName : FName)
    (inputs : List (TickInput R)) (s : LoopState σ) :
    (runLoop Z SubjectName inputs s).2.length = inputs.length := by
  induction inputs generalizing s with
  | nil => rfl
  | cons inp rest ih => simp [runLoop, ih]

/-- The number of `Grab` calls of a run is the number of ticks on which a
connection was present. -/
theorem runLoop_countP_isGrab (Z : ZEDCamera σ R) (SubjectName : FName)
    (inputs : List (TickInput R)) (s : LoopState σ) :
    (runLoop Z SubjectName inputs s).2.flatten.countP Call.isGrab =
      inputs.countP (fun inp => inp.HasConnection) := by
  induction inputs generalizing s with
  | nil => rfl
  | cons inp rest ih =>
    simp only [runLoop, List.flatten_cons, List.countP_append, ih, List.countP_cons]
    cases h : inp.HasConnection
    · simp [tick_disconnected Z SubjectName inp s h]
      split_ifs <;> simp [Call.isGrab]
    · simp [tick_countP_isGrab_connected Z SubjectName inp s h, Nat.add_comm]

/-- The number of frame samples of a run is at most its number of `Grab`
calls. -/
theorem runLoop_countP_isFrameData_le (Z : ZEDCamera σ R) (SubjectName : FName)
    (inputs : List (TickInput R)) (s : LoopState σ) :
    (runLoop Z SubjectName inputs s).2.flatten.countP Call.isFrameData ≤
      (runLoop Z SubjectName inputs s).2.flatten.countP Call.isGrab := by
  induction inputs generalizing s with
  | nil => simp [runLoop]
  | cons inp rest ih =>
    simp only [runLoop, List.flatten_cons, List.countP_append]
    exact Nat.add_le_add (tick_countP_isFrameData_le Z SubjectName inp s) (ih _)

end Loop

/-- C1: `BuildUETransformFromZEDTransform` copies the translation `(tx,ty,tz)`
and the rotation `(x,y,z,w)` of the pose component by component, in the same
order, and sets the scale to `(1,1,1)`. -/
theorem C1_BuildUETransformFromZEDTransform_copy {R : Type} [NatCast R]
    (tx ty tz x y z w : R) :
    BuildUETransformFromZEDTransform
        { translation := ⟨tx, ty, tz⟩, rotation := ⟨x, y, z, w⟩ } =
      { Translation := { X := tx, Y := ty, Z := tz }
        Rotation := { X := x, Y := y, Z := z, W := w }
        Scale3D := { X := ((1 : Nat) : R), Y := ((1 : Nat) : R), Z := ((1 : Nat) : R) } } :=
  rfl

/-- C2: on a tick on which `HasConnection()` returns false, whatever
`IsConnected` is, the tick calls neither `Grab` nor `setSVOPosition` nor
`GetPosition` nor `UpdateSubjectFrameData`; and over any run the number of
`Grab` calls and the number of frame samples published are at most the number
of ticks on which `HasConnection()` returned true. -/
theorem C2_no_publish_when_disconnected {σ R : Type} [NatCast R] [Div R]
    (Z : ZEDCamera σ R) (SubjectName : FName) (inp : TickInput R) (s : LoopState σ)
    (inputs : List (TickInput R)) (s0 : LoopState σ) (h : inp.HasConnection = false) :
    (∀ c ∈ (tick Z SubjectName inp s).2,
        c.isGrab = false ∧ c.isSetSVOPosition = false ∧ c.isGetPosition = false ∧
          c.isFrameData = false) ∧
      (runLoop Z SubjectName inputs s0).2.flatten.countP Call.isGrab ≤
        inputs.countP (fun i => i.HasConnection) ∧
      (runLoop Z SubjectName inputs s0).2.flatten.countP Call.isFrameData ≤
        inputs.countP (fun i => i.HasConnection) := by
  refine ⟨?_, ?_, ?_⟩
  · rw [tick_disconnected Z SubjectName inp s h]
    split_ifs <;> simp [Call.isGrab, Call.isSetSVOPosition, Call.isGetPosition, Call.isFrameData]
  · exact le_of_eq (runLoop_countP_isGrab Z SubjectName inputs s0)
  · exact le_trans (runLoop_countP_isFrameData_le Z SubjectName inputs s0)
      (le_of_eq (runLoop_countP_isGrab Z SubjectName inputs s0))

section Run

variable {σ R : Type} [NatCast R] [Div R]

/-- After a tick `IsConnected` is the connection value the tick observed. -/
theorem tick_IsConnected (Z : ZEDCamera σ R) (SubjectName : FName) (inp : TickInput R)
    (s : LoopState σ) : (tick Z SubjectName inp s).1.IsConnected = inp.HasConnection := by
  cases h : inp.HasConnection
  · rw [tick_disconnected Z SubjectName inp s h]
    split_ifs with hc
    · rfl
    · simpa using hc
  · by_cases h1 : (Z.Grab { reference_frame := .WORLD } s.Cam).1 = .SUCCESS
    · rw [tick_success Z SubjectName inp s h h1]
    · by_cases h2 : (Z.Grab { reference_frame := .WORLD } s.Cam).1 = .END_OF_SVOFILE_REACHED
      · rw [tick_end_of_svo Z SubjectName inp s h h2]
      · rw [tick_grab_failed Z SubjectName inp s h h1 h2]

/-- A tick emits the "connected" event once when it observes a connection
while `IsConnected` is not set, and never otherwise. -/
theorem tick_countP_isConnectedEvent (Z : ZEDCamera σ R) (SubjectName : FName)
    (inp : TickInput R) (s : LoopState σ) :
    (tick Z SubjectName inp s).2.countP Call.isConnectedEvent =
      if !s.IsConnected && inp.HasConnection then 1 else 0 := by
  cases h : inp.HasConnection
  · cases hc : s.IsConnected <;>
      simp [tick_disconnected Z SubjectName inp s h, hc, Call.isConnectedEvent, connectedText]
  · by_cases h1 : (Z.Grab { reference_frame := .WORLD } s.Cam).1 = .SUCCESS
    · rw [tick_success Z SubjectName inp s h h1, List.countP_append,
        connectedLines_countP_isConnectedEvent]
      cases s.IsConnected <;> simp [Call.isConnectedEvent, List.countP_cons]
    · by_cases h2 : (Z.Grab { reference_frame := .WORLD } s.Cam).1 = .END_OF_SVOFILE_REACHED
      · rw [tick_end_of_svo Z SubjectName inp s h h2, List.countP_append,
          connectedLines_countP_isConnectedEvent]
        cases s.IsConnected <;> simp [Call.isConnectedEvent, List.countP_cons, connectedText]
      · rw [tick_grab_failed Z SubjectName inp s h h1 h2, List.countP_append,
          connectedLines_countP_isConnectedEvent]
        cases s.IsConnected <;> simp [Call.isConnectedEvent, List.countP_cons, connectedText]

/-- No tick publishes a static descriptor. -/
theorem tick_no_static (Z : ZEDCamera σ R) (SubjectName : FName) (inp : TickInput R)
    (s : LoopState σ) : ∀ c ∈ (tick Z SubjectName inp s).2, c.isStaticData = false := by
  have hl : ∀ c ∈ (connectedLines s.IsConnected SubjectName : List (Call R)),
      c.isStaticData = false := by
    cases s.IsConnected <;> simp [connectedLines, Call.isStaticData]
  cases h : inp.HasConnection
  · rw [tick_disconnected Z SubjectName inp s h]
    split_ifs <;> simp [Call.isStaticData]
  · by_cases h1 : (Z.Grab { reference_frame := .WORLD } s.Cam).1 = .SUCCESS
    · rw [tick_success Z SubjectName inp s h h1]
      refine List.forall_mem_append.2 ⟨hl, ?_⟩
      simp [Call.isStaticData]
    · by_cases h2 : (Z.Grab { reference_frame := .WORLD } s.Cam).1 = .END_OF_SVOFILE_REACHED
      · rw [tick_end_of_svo Z SubjectName inp s h h2]
        refine List.forall_mem_append.2 ⟨hl, ?_⟩
        simp [Call.isStaticData]
      · rw [tick_grab_failed Z SubjectName inp s h h1 h2]
        refine List.forall_mem_append.2 ⟨hl, ?_⟩
        simp [Call.isStaticData]

/-- No tick of a run publishes a static descriptor. -/
theorem runLoop_no_static (Z : ZEDCamera σ R) (SubjectName : FName)
    (inputs : List (TickInput R)) (s : LoopState σ) :
    ∀ t ∈ (runLoop Z SubjectName inputs s).2, ∀ c ∈ t, c.isStaticData = false := by
  induction inputs generalizing s with
  | nil => simp [runLoop]
  | cons inp rest ih =>
    intro t ht
    simp only [runLoop, List.mem_cons] at ht
    rcases ht with rfl | ht
    · exact tick_no_static Z SubjectName inp s
    · exact ih _ t ht

/-- The "connected" events of a run are the changes from no connection to
connection in the observed sequence. -/
theorem runLoop_countP_isConnectedEvent (Z : ZEDCamera σ R) (SubjectName : FName)
    (inputs : List (TickInput R)) (s : LoopState σ) :
    (runLoop Z SubjectName inputs s).2.flatten.countP Call.isConnectedEvent =
      risingEdges s.IsConnected (inputs.map fun i => i.HasConnection) := by
  induction inputs generalizing s with
  | nil => rfl
  | cons inp rest ih =>
    simp only [runLoop, List.flatten_cons, List.countP_append, ih, List.map_cons,
      risingEdges, tick_countP_isConnectedEvent, tick_IsConnected]

/-- While a connection is observed on every tick, `IsConnected` stays set and
no further "connected" event is emitted. -/
theorem runLoop_connected_quiet (Z : ZEDCamera σ R) (SubjectName : FName)
    (inputs : List (TickInput R)) (s : LoopState σ) (hs : s.IsConnected = true)
    (hall : ∀ i ∈ inputs, i.HasConnection = true) :
    (∀ t ∈ (runLoop Z SubjectName inputs s).2, t.countP Call.isConnectedEvent = 0) ∧
      (runLoop Z SubjectName inputs s).1.IsConnected = true := by
  induction inputs generalizing s with
  | nil => simp [runLoop, hs]
  | cons inp rest ih =>
    have hi : inp.HasConnection = true := hall inp (List.mem_cons_self _ _)
    have hnext : (tick Z SubjectName inp s).1.IsConnected = true := by
      rw [tick_IsConnected, hi]
    have := ih (tick Z SubjectName inp s).1 hnext
      (fun i hi2 => hall i (List.mem_cons_of_mem _ hi2))
    refine ⟨?_, this.2⟩
    intro t ht
    simp only [runLoop, List.mem_cons] at ht
    rcases ht with rfl | ht
    · rw [tick_countP_isConnectedEvent, hs]; rfl
    · exact this.1 t ht

end Run

/-- The calls of `InitCamera` hold no publication and no `Grab`. -/
theorem InitCamera_calls_quiet {σ R : Type} (Z : ZEDCamera σ R) (zed : σ)
    (argv : List String) :
    ∀ c ∈ (InitCamera Z zed argv).calls,
      c.isStaticData = false ∧ c.isFrameData = false ∧ c.isGrab = false := by
  have hout : ∀ (out : List String), ∀ c ∈ (out.map Call.cout : List (Call R)),
      c.isStaticData = false ∧ c.isFrameData = false ∧ c.isGrab = false := by
    intro out c hc
    obtain ⟨t, _, rfl⟩ := List.mem_map.1 hc
    exact ⟨rfl, rfl, rfl⟩
  unfold InitCamera
  simp only []
  split_ifs
  · simp [Call.isStaticData, Call.isFrameData, Call.isGrab]
  · refine List.forall_mem_append.2 ⟨List.forall_mem_append.2
      ⟨List.forall_mem_append.2 ⟨?_, hout _⟩, ?_⟩, ?_⟩ <;>
      simp [Call.isStaticData, Call.isFrameData, Call.isGrab]
  · refine List.forall_mem_append.2 ⟨List.forall_mem_append.2 ⟨List.forall_mem_append.2
      ⟨List.forall_mem_append.2 ⟨?_, hout _⟩, ?_⟩, ?_⟩, ?_⟩ <;>
      simp [Call.isStaticData, Call.isFrameData, Call.isGrab]
  · refine List.forall_mem_append.2 ⟨List.forall_mem_append.2
      ⟨List.forall_mem_append.2 ⟨?_, hout _⟩, ?_⟩, ?_⟩ <;>
      simp [Call.isStaticData, Call.isFrameData, Call.isGrab]

/-- The calls `main` makes before the static descriptor, when `InitCamera`
succeeds. -/
theorem main_startup_of_success {σ R : Type} [NatCast R] [Div R] (Z : ZEDCamera σ R)
    (zed : σ) (argv : List String) (inputs : List (TickInput R))
    (hinit : (InitCamera Z zed argv).err = .SUCCESS) :
    main Z zed true argv inputs =
      { status := .inLoop
        IsConnected := (runLoop Z (InitCamera Z zed argv).SubjectName inputs
          { IsConnected := false, Cam := (InitCamera Z zed argv).Cam }).1.IsConnected
        SubjectName := (InitCamera Z zed argv).SubjectName
        Cam := (runLoop Z (InitCamera Z zed argv).SubjectName inputs
          { IsConnected := false, Cam := (InitCamera Z zed argv).Cam }).1.Cam
        startup :=
          ([.cout "Starting ZEDLiveLink tool\n", .cout "Opening camera...\n", .LibInit,
              .CreateLiveLinkProvider "ZED"] ++ (InitCamera Z zed argv).calls ++
            [.cout "Waiting for connection...\n"]) ++
            UpdateCameraStaticData (InitCamera Z zed argv).SubjectName
        ticks := (runLoop Z (InitCamera Z zed argv).SubjectName inputs
          { IsConnected := false, Cam := (InitCamera Z zed argv).Cam }).2 } := by
  simp [main, hinit]

/-- C3: when `InitCamera` succeeded and the provider handle is valid, then for
every finite sequence of ticks (any connection values, any camera behaviour)
`UpdateSubjectStaticData` has been called exactly once in the whole run; that
call is the last one before the loop, and no tick of the loop makes it. -/
theorem C3_static_descriptor_exactly_once {σ R : Type} [NatCast R] [Div R]
    (Z : ZEDCamera σ R) (zed : σ) (argv : List String) (inputs : List (TickInput R))
    (hinit : (InitCamera Z zed argv).err = .SUCCESS) :
    (main Z zed true argv inputs).status = .inLoop ∧
      (main Z zed true argv inputs).ticks.length = inputs.length ∧
      (main Z zed true argv inputs).calls.countP Call.isStaticData = 1 ∧
      (∃ before : List (Call R),
        (main Z zed true argv inputs).startup =
          before ++ [.UpdateSubjectStaticData (InitCamera Z zed argv).SubjectName
            { bIsAspectRatioSupported := true
              bIsFieldOfViewSupported := true
              bIsFocalLengthSupported := false
              bIsFocusDistanceSupported := false
              bIsProjectionModeSupported := true }] ∧
        ∀ c ∈ before, c.isStaticData = false) ∧
      ∀ t ∈ (main Z zed true argv inputs).ticks, ∀ c ∈ t, c.isStaticData = false := by
  have hq := InitCamera_calls_quiet Z zed argv
  have hbefore : ∀ c ∈ ([.cout "Starting ZEDLiveLink tool\n", .cout "Opening camera...\n",
      .LibInit, .CreateLiveLinkProvider "ZED"] ++ (InitCamera Z zed argv).calls ++
        [.cout "Waiting for connection...\n"] : List (Call R)), c.isStaticData = false := by
    refine List.forall_mem_append.2 ⟨List.forall_mem_append.2 ⟨?_, fun c hc => (hq c hc).1⟩, ?_⟩
      <;> simp [Call.isStaticData]
  have hticks := runLoop_no_static Z (InitCamera Z zed argv).SubjectName inputs
    { IsConnected := false, Cam := (InitCamera Z zed argv).Cam }
  rw [main_startup_of_success Z zed argv inputs hinit]
  refine ⟨rfl, runLoop_length _ _ _ _, ?_, ⟨_, rfl, hbefore⟩, hticks⟩
  simp only [MainRun.calls, List.countP_append, UpdateCameraStaticData]
  have h0 : List.countP Call.isStaticData
      (runLoop Z (InitCamera Z zed argv).SubjectName inputs
        { IsConnected := false, Cam := (InitCamera Z zed argv).Cam }).2.flatten = 0 := by
    rw [List.countP_eq_zero]
    intro c hc
    obtain ⟨t, ht, hct⟩ := List.mem_flatten.1 hc
    simp [hticks t ht c hct]
  have h1 : List.countP Call.isStaticData ((InitCamera Z zed argv).calls : List (Call R)) = 0 := by
    rw [List.countP_eq_zero]
    intro c hc
    simp [(hq c hc).1]
  simp [h0, h1, Call.isStaticData, List.countP_cons]

/-- C4: starting from `IsConnected = false`, over one or more consecutive
ticks that all observe a connection (whatever `Grab` returns) the "connected"
event is emitted exactly once, by the first of them, and `IsConnected` is set
afterwards; and in any run started from `IsConnected = false` the number of
"connected" events equals the number of changes from false to true in the
observed `HasConnection` sequence, the value before the first tick being
false. -/
theorem C4_connected_event_once {σ R : Type} [NatCast R] [Div R]
    (Z : ZEDCamera σ R) (SubjectName : FName) (cam : σ) (connected : List (TickInput R))
    (inputs : List (TickInput R)) (cam0 : σ)
    (hk : 1 ≤ connected.length) (hall : ∀ i ∈ connected, i.HasConnection = true) :
    (∃ first rest,
        (runLoop Z SubjectName connected { IsConnected := false, Cam := cam }).2 =
          first :: rest ∧
        first.countP Call.isConnectedEvent = 1 ∧
        ∀ t ∈ rest, t.countP Call.isConnectedEvent = 0) ∧
      (runLoop Z SubjectName connected { IsConnected := false, Cam := cam }).1.IsConnected
        = true ∧
      (runLoop Z SubjectName inputs { IsConnected := false, Cam := cam0 }).2.flatten.countP
          Call.isConnectedEvent =
        risingEdges false (inputs.map fun i => i.HasConnection) := by
  refine ⟨?_, ?_, runLoop_countP_isConnectedEvent Z SubjectName inputs _⟩
  · cases connected with
    | nil => simp at hk
    | cons inp more =>
      have hi : inp.HasConnection = true := hall inp (List.mem_cons_self _ _)
      have hnext : (tick Z SubjectName inp { IsConnected := false, Cam := cam }).1.IsConnected
          = true := by rw [tick_IsConnected, hi]
      refine ⟨_, _, rfl, ?_, ?_⟩
      · rw [tick_countP_isConnectedEvent, hi]; rfl
      · exact (runLoop_connected_quiet Z SubjectName more _ hnext
          (fun i hi2 => hall i (List.mem_cons_of_mem _ hi2))).1
  · cases connected with
    | nil => simp at hk
    | cons inp more =>
      have hi : inp.HasConnection = true := hall inp (List.mem_cons_self _ _)
      have hnext : (tick Z SubjectName inp { IsConnected := false, Cam := cam }).1.IsConnected
          = true := by rw [tick_IsConnected, hi]
      exact (runLoop_connected_quiet Z SubjectName more _ hnext
          (fun i hi2 => hall i (List.mem_cons_of_mem _ hi2))).2

/-- The lines of the "connected" event hold no frame sample and no seek. -/
theorem connectedLines_filter {R : Type} (b : Bool) (SubjectName : FName) :
    (connectedLines b SubjectName : List (Call R)).filter Call.isFrameData = [] ∧
      (connectedLines b SubjectName : List (Call R)).filter Call.isSetSVOPosition = [] := by
  cases b <;> simp [connectedLines, Call.isFrameData, Call.isSetSVOPosition]

section Recorded

variable {R : Type} [NatCast R] [Div R]

/-- A connected tick of the recorded source at a position that holds a frame
publishes that frame and advances the position. -/
theorem svo_tick_frame (frames : List (SL_PoseData R)) (serial : Int) (SubjectName : FName)
    (inp : TickInput R) (b : Bool) (pos : Nat) (pose f : SL_PoseData R)
    (h : inp.HasConnection = true) (hf : frames[pos]? = some f) :
    tick (svoCamera frames serial) SubjectName inp
        { IsConnected := b, Cam := { position := pos, pose := pose } } =
      ({ IsConnected := true, Cam := { position := pos + 1, pose := f } },
        connectedLines b SubjectName ++
          [.Grab { reference_frame := .WORLD }, .GetPosition .WORLD, .Seconds,
            .UpdateSubjectFrameData SubjectName (frameSample f inp.Seconds)]) := by
  have hg : ((svoCamera frames serial).Grab { reference_frame := .WORLD }
      { position := pos, pose := pose }) = (.SUCCESS, { position := pos + 1, pose := f }) := by
    simp [svoCamera, hf]
  rw [tick_success _ _ _ _ h (by rw [hg])]
  simp [svoCamera, hf]

/-- A connected tick of the recorded source at the end of the recording seeks
back to frame zero and publishes nothing. -/
theorem svo_tick_end (frames : List (SL_PoseData R)) (serial : Int) (SubjectName : FName)
    (inp : TickInput R) (b : Bool) (pos : Nat) (pose : SL_PoseData R)
    (h : inp.HasConnection = true) (hf : frames[pos]? = none) :
    tick (svoCamera frames serial) SubjectName inp
        { IsConnected := b, Cam := { position := pos, pose := pose } } =
      ({ IsConnected := true, Cam := { position := 0, pose := pose } },
        connectedLines b SubjectName ++
          [.Grab { reference_frame := .WORLD }, .cout "End of SVO reached \n",
            .setSVOPosition 0]) := by
  have hg : ((svoCamera frames serial).Grab { reference_frame := .WORLD }
      { position := pos, pose := pose }) =
        (.END_OF_SVOFILE_REACHED, { position := pos, pose := pose }) := by
    simp [svoCamera, hf]
  rw [tick_end_of_svo _ _ _ _ h (by rw [hg])]
  simp [svoCamera, hf]

/-- Playback from any position within the recording: the tick of index `t`
handles the frame of index `(pos + t) % (N + 1)`, or the end of the recording
when that index is `N`. -/
theorem svo_runLoop_get (frames : List (SL_PoseData R)) (serial : Int)
    (SubjectName : FName) (inputs : List (TickInput R))
    (hall : ∀ i ∈ inputs, i.HasConnection = true) (b : Bool) (pos : Nat)
    (pose : SL_PoseData R) (hpos : pos ≤ frames.length) (t : Nat) (inp : TickInput R)
    (ht : inputs[t]? = some inp) :
    ∃ calls,
      (runLoop (svoCamera frames serial) SubjectName inputs
        { IsConnected := b, Cam := { position := pos, pose := pose } }).2[t]? = some calls ∧
      (∀ f, frames[(pos + t) % (frames.length + 1)]? = some f →
        calls.filter Call.isFrameData =
            [.UpdateSubjectFrameData SubjectName (frameSample f inp.Seconds)] ∧
          calls.filter Call.isSetSVOPosition = []) ∧
      ((pos + t) % (frames.length + 1) = frames.length →
        calls.filter Call.isFrameData = [] ∧
          calls.filter Call.isSetSVOPosition = [.setSVOPosition 0]) := by
  induction inputs generalizing b pos pose t with
  | nil => simp at ht
  | cons i rest ih =>
    have hi : i.HasConnection = true := hall i (List.mem_cons_self _ _)
    have hrest : ∀ j ∈ rest, j.HasConnection = true :=
      fun j hj => hall j (List.mem_cons_of_mem _ hj)
    have hmod : pos % (frames.length + 1) = pos := Nat.mod_eq_of_lt (by omega)
    cases t with
    | zero =>
      simp only [List.getElem?_cons_zero, Option.some.injEq] at ht
      subst ht
      simp only [runLoop, List.getElem?_cons_zero, Option.some.injEq, exists_eq_left',
        Nat.add_zero, hmod]
      cases hf : frames[pos]? with
      | some f =>
        have hlt : pos < frames.length := by
          by_contra hge
          rw [List.getElem?_eq_none (by omega)] at hf
          cases hf
        rw [svo_tick_frame frames serial SubjectName i b pos pose f hi hf]
        refine ⟨?_, fun hN => absurd hN (by omega)⟩
        intro g hg
        cases hg
        simp [List.filter_append, connectedLines_filter, Call.isFrameData,
          Call.isSetSVOPosition, List.filter_cons]
      | none =>
        rw [svo_tick_end frames serial SubjectName i b pos pose hi hf]
        refine ⟨fun g hg => (by cases hg), fun _ => ?_⟩
        simp [List.filter_append, connectedLines_filter, Call.isFrameData,
          Call.isSetSVOPosition, List.filter_cons]
    | succ t =>
      simp only [List.getElem?_cons_succ] at ht
      simp only [runLoop, List.getElem?_cons_succ]
      cases hf : frames[pos]? with
      | some f =>
        have hlt : pos < frames.length := by
          by_contra hge
          rw [List.getElem?_eq_none (by omega)] at hf
          cases hf
        rw [svo_tick_frame frames serial SubjectName i b pos pose f hi hf]
        have := ih hrest true (pos + 1) f (by omega) t ht
        rwa [show pos + 1 + t = pos + (t + 1) by omega] at this
      | none =>
        have hge : pos = frames.length := by
          have := List.getElem?_eq_none_iff.1 hf
          omega
        rw [svo_tick_end frames serial SubjectName i b pos pose hi hf]
        have := ih hrest true 0 pose (by omega) t ht
        have hstep : (pos + (t + 1)) % (frames.length + 1) = (0 + t) % (frames.length + 1) := by
          rw [hge, show frames.length + (t + 1) = t + (frames.length + 1) by omega,
            Nat.add_mod_right, Nat.zero_add]
        rwa [← hstep] at this

end Recorded

/-- C5: with a recorded source of `N` frames at position 0 and a connection on
every tick, the tick of index `t` (from 0) publishes exactly one frame sample,
that of frame `t % (N + 1)`, and does not seek, when `t % (N + 1) < N`; it
publishes nothing and calls `setSVOPosition(0)` exactly once when
`t % (N + 1) = N`.  So ticks `1..N` publish frames `0..N-1` in order, tick
`N + 1` seeks back, tick `N + 2` publishes frame 0 again, and playback repeats
with period `N + 1`. -/
theorem C5_end_of_recording_loop {R : Type} [NatCast R] [Div R]
    (frames : List (SL_PoseData R)) (serial : Int) (SubjectName : FName)
    (inputs : List (TickInput R)) (b : Bool) (pose0 : SL_PoseData R) (t : Nat)
    (inp : TickInput R) (hN : 1 ≤ frames.length)
    (hall : ∀ i ∈ inputs, i.HasConnection = true) (ht : inputs[t]? = some inp) :
    ∃ calls,
      (runLoop (svoCamera frames serial) SubjectName inputs
        { IsConnected := b, Cam := { position := 0, pose := pose0 } }).2[t]? = some calls ∧
      (∀ f, frames[t % (frames.length + 1)]? = some f →
        calls.filter Call.isFrameData =
            [.UpdateSubjectFrameData SubjectName (frameSample f inp.Seconds)] ∧
          calls.filter Call.isSetSVOPosition = []) ∧
      (t % (frames.length + 1) = frames.length →
        calls.filter Call.isFrameData = [] ∧
          calls.filter Call.isSetSVOPosition = [.setSVOPosition 0]) ∧
      (t = frames.length + 1 →
        calls.filter Call.isFrameData =
          [.UpdateSubjectFrameData SubjectName
            (frameSample (frames.get ⟨0, hN⟩) inp.Seconds)]) := by
  obtain ⟨calls, h1, h2, h3⟩ := svo_runLoop_get frames serial SubjectName inputs hall b 0
    pose0 (Nat.zero_le _) t inp ht
  rw [Nat.zero_add] at h2 h3
  refine ⟨calls, h1, h2, h3, ?_⟩
  intro hN2
  refine (h2 (frames.get ⟨0, hN⟩) ?_).1
  rw [hN2, Nat.mod_self]
  exact List.getElem?_eq_getElem hN

/-- The lines of the "connected" event hold no `Grab` and no `GetPosition`. -/
theorem connectedLines_filter_camera {R : Type} (b : Bool) (SubjectName : FName) :
    (connectedLines b SubjectName : List (Call R)).filter Call.isGrab = [] ∧
      (connectedLines b SubjectName : List (Call R)).filter Call.isGetPosition = [] := by
  cases b <;> simp [connectedLines, Call.isGrab, Call.isGetPosition]

/-- C6: on every tick on which `HasConnection()` returns true, whether or not
`IsConnected` was already set, `Grab` is called exactly once, with reference
frame `WORLD`; when that `Grab` returns `SUCCESS` the tick calls
`GetPosition(WORLD)` once and publishes exactly one frame sample through
`UpdateSubjectFrameData`, under the tick's subject name, whose `Transform` is
`BuildUETransformFromZEDTransform` of the pose read, whose `ProjectionMode` is
`Perspective` and whose `AspectRatio` is `16 / 9`, and it does not call
`setSVOPosition`.  In `main` the subject name of every tick is the one
`InitCamera` set. -/
theorem C6_successful_grab_tick {σ R : Type} [NatCast R] [Div R]
    (Z : ZEDCamera σ R) (SubjectName : FName) (inp : TickInput R) (s : LoopState σ)
    (zed : σ) (argv : List String) (inputs : List (TickInput R))
    (h : inp.HasConnection = true) :
    (tick Z SubjectName inp s).2.filter Call.isGrab =
        [.Grab { reference_frame := .WORLD }] ∧
      ((Z.Grab { reference_frame := .WORLD } s.Cam).1 = .SUCCESS →
        (tick Z SubjectName inp s).2.filter Call.isGetPosition = [.GetPosition .WORLD] ∧
        (tick Z SubjectName inp s).2.filter Call.isFrameData =
          [.UpdateSubjectFrameData SubjectName
            { AspectRatio := ((16 : Nat) : R) / ((9 : Nat) : R)
              ProjectionMode := .Perspective
              Transform := BuildUETransformFromZEDTransform
                (Z.GetPosition .WORLD (Z.Grab { reference_frame := .WORLD } s.Cam).2).1
              WorldTime := inp.Seconds }] ∧
        (tick Z SubjectName inp s).2.filter Call.isSetSVOPosition = []) ∧
      ((InitCamera Z zed argv).err = .SUCCESS →
        (main Z zed true argv inputs).ticks =
          (runLoop Z (InitCamera Z zed argv).SubjectName inputs
            { IsConnected := false, Cam := (InitCamera Z zed argv).Cam }).2) := by
  refine ⟨?_, ?_, ?_⟩
  · by_cases h1 : (Z.Grab { reference_frame := .WORLD } s.Cam).1 = .SUCCESS
    · simp [tick_success Z SubjectName inp s h h1, List.filter_append,
        connectedLines_filter_camera, Call.isGrab, List.filter_cons]
    · by_cases h2 : (Z.Grab { reference_frame := .WORLD } s.Cam).1 = .END_OF_SVOFILE_REACHED
      · simp [tick_end_of_svo Z SubjectName inp s h h2, List.filter_append,
          connectedLines_filter_camera, Call.isGrab, List.filter_cons]
      · simp [tick_grab_failed Z SubjectName inp s h h1 h2, List.filter_append,
          connectedLines_filter_camera, Call.isGrab, List.filter_cons]
  · intro h1
    simp [tick_success Z SubjectName inp s h h1, List.filter_append,
      connectedLines_filter_camera, connectedLines_filter, Call.isGetPosition,
      Call.isFrameData, Call.isSetSVOPosition, List.filter_cons, frameSample]
  · intro hinit
    rw [main_startup_of_success Z zed argv inputs hinit]

/-- C7: on a tick with a connection whose `Grab` returns a code other than
`SUCCESS` and `END_OF_SVOFILE_REACHED`, no frame sample is published and
`setSVOPosition` is not called; `IsConnected` after the tick is set, exactly as
after a connected tick whose `Grab` succeeds; and the loop goes on to the next
tick from the state this tick left. -/
theorem C7_transient_grab_failure {σ R : Type} [NatCast R] [Div R]
    (Z : ZEDCamera σ R) (SubjectName : FName) (inp : TickInput R) (s : LoopState σ)
    (rest : List (TickInput R)) (Z2 : ZEDCamera σ R) (cam2 : σ)
    (h : inp.HasConnection = true)
    (h1 : (Z.Grab { reference_frame := .WORLD } s.Cam).1 ≠ .SUCCESS)
    (h2 : (Z.Grab { reference_frame := .WORLD } s.Cam).1 ≠ .END_OF_SVOFILE_REACHED)
    (hok : (Z2.Grab { reference_frame := .WORLD } cam2).1 = .SUCCESS) :
    (tick Z SubjectName inp s).2.filter Call.isFrameData = [] ∧
      (tick Z SubjectName inp s).2.filter Call.isSetSVOPosition = [] ∧
      (tick Z SubjectName inp s).1.IsConnected = true ∧
      (tick Z SubjectName inp s).1.IsConnected =
        (tick Z2 SubjectName inp { IsConnected := s.IsConnected, Cam := cam2 }).1.IsConnected ∧
      (tick Z SubjectName inp s).1.Cam = (Z.Grab { reference_frame := .WORLD } s.Cam).2 ∧
      runLoop Z SubjectName (inp :: rest) s =
        ((runLoop Z SubjectName rest (tick Z SubjectName inp s).1).1,
          (tick Z SubjectName inp s).2 ::
            (runLoop Z SubjectName rest (tick Z SubjectName inp s).1).2) := by
  refine ⟨?_, ?_, ?_, ?_, ?_, rfl⟩
  · simp [tick_grab_failed Z SubjectName inp s h h1 h2, List.filter_append,
      connectedLines_filter, Call.isFrameData, List.filter_cons]
  · simp [tick_grab_failed Z SubjectName inp s h h1 h2, List.filter_append,
      connectedLines_filter, Call.isSetSVOPosition, List.filter_cons]
  · rw [tick_IsConnected, h]
  · rw [tick_IsConnected, h, tick_success Z2 SubjectName inp _ h hok]
  · rw [tick_grab_failed Z SubjectName inp s h h1 h2]

/-- Witness of C2: a tick without a connection on the two-frame recording, and
a run of three ticks of which two observe a connection. -/
theorem C2_no_publish_when_disconnected_witness :
    (⟨false, 0⟩ : TickInput Int).HasConnection = false ∧
      ((runLoop (svoCamera sampleFrames 1234) "1234"
          [⟨true, 1⟩, ⟨false, 2⟩, ⟨true, 3⟩]
          { IsConnected := false, Cam := ⟨0, samplePose 0⟩ }).2.flatten.countP Call.isGrab ≤
        List.countP (fun i => i.HasConnection)
          ([⟨true, 1⟩, ⟨false, 2⟩, ⟨true, 3⟩] : List (TickInput Int))) :=
  ⟨rfl, (C2_no_publish_when_disconnected (svoCamera sampleFrames 1234) "1234" ⟨false, 0⟩
    { IsConnected := true, Cam := ⟨0, samplePose 0⟩ } [⟨true, 1⟩, ⟨false, 2⟩, ⟨true, 3⟩]
    { IsConnected := false, Cam := ⟨0, samplePose 0⟩ } rfl).2.1⟩

/-- Witness of C3: the two-frame recording started without arguments and
followed for two ticks. -/
theorem C3_static_descriptor_exactly_once_witness :
    (InitCamera (svoCamera sampleFrames 1234) ⟨0, samplePose 0⟩ ["ZEDLiveLink"]).err
        = .SUCCESS ∧
      (main (svoCamera sampleFrames 1234) ⟨0, samplePose 0⟩ true ["ZEDLiveLink"]
        [⟨true, 1⟩, ⟨false, 2⟩]).calls.countP Call.isStaticData = 1 :=
  ⟨by decide, (C3_static_descriptor_exactly_once (svoCamera sampleFrames 1234)
    ⟨0, samplePose 0⟩ ["ZEDLiveLink"] [⟨true, 1⟩, ⟨false, 2⟩] (by decide)).2.2.1⟩

/-- Witness of C4: three connected ticks on the two-frame recording, and a run
that connects twice. -/
theorem C4_connected_event_once_witness :
    (runLoop (svoCamera sampleFrames 1234) "1234" [⟨true, 1⟩, ⟨true, 2⟩, ⟨true, 3⟩]
        { IsConnected := false, Cam := ⟨0, samplePose 0⟩ }).1.IsConnected = true ∧
      (runLoop (svoCamera sampleFrames 1234) "1234"
          [⟨true, 1⟩, ⟨false, 2⟩, ⟨true, 3⟩, ⟨true, 4⟩]
          { IsConnected := false, Cam := ⟨0, samplePose 0⟩ }).2.flatten.countP
          Call.isConnectedEvent =
        risingEdges false (([⟨true, 1⟩, ⟨false, 2⟩, ⟨true, 3⟩, ⟨true, 4⟩] :
          List (TickInput Int)).map fun i => i.HasConnection) :=
  (C4_connected_event_once (svoCamera sampleFrames 1234) "1234" ⟨0, samplePose 0⟩
    [⟨true, 1⟩, ⟨true, 2⟩, ⟨true, 3⟩] [⟨true, 1⟩, ⟨false, 2⟩, ⟨true, 3⟩, ⟨true, 4⟩]
    ⟨0, samplePose 0⟩ (by decide) (by simp)).2

/-- Witness of C5: on the two-frame recording the fourth connected tick
publishes frame 0 again. -/
theorem C5_end_of_recording_loop_witness :
    ∃ calls,
      (runLoop (svoCamera sampleFrames 1234) "1234"
        [⟨true, 1⟩, ⟨true, 2⟩, ⟨true, 3⟩, ⟨true, 4⟩]
        { IsConnected := false, Cam := ⟨0, samplePose 0⟩ }).2[3]? = some calls ∧
      calls.filter Call.isFrameData =
        [.UpdateSubjectFrameData "1234" (frameSample (samplePose 10) 4)] := by
  obtain ⟨calls, h1, _, _, h4⟩ := C5_end_of_recording_loop sampleFrames 1234 "1234"
    [⟨true, 1⟩, ⟨true, 2⟩, ⟨true, 3⟩, ⟨true, 4⟩] false (samplePose 0) 3 ⟨true, 4⟩
    (by decide) (by simp) rfl
  exact ⟨calls, h1, h4 rfl⟩

/-- Witness of C6: the first connected tick of the two-frame recording. -/
theorem C6_successful_grab_tick_witness :
    (tick (svoCamera sampleFrames 1234) "1234" ⟨true, 7⟩
        { IsConnected := false, Cam := ⟨0, samplePose 0⟩ }).2.filter Call.isFrameData =
      [.UpdateSubjectFrameData "1234"
        { AspectRatio := ((16 : Nat) : Int) / ((9 : Nat) : Int)
          ProjectionMode := .Perspective
          Transform := BuildUETransformFromZEDTransform
            ((svoCamera sampleFrames 1234).GetPosition .WORLD
              ((svoCamera sampleFrames 1234).Grab { reference_frame := .WORLD }
                ⟨0, samplePose 0⟩).2).1
          WorldTime := 7 }] :=
  ((C6_successful_grab_tick (svoCamera sampleFrames 1234) "1234" ⟨true, 7⟩
    { IsConnected := false, Cam := ⟨0, samplePose 0⟩ } ⟨0, samplePose 0⟩ ["ZEDLiveLink"] []
    rfl).2.1 rfl).2.1

/-- Witness of C7: a connected tick on which `Grab` returns another error
code. -/
theorem C7_transient_grab_failure_witness :
    (tick (scriptedCamera true .SUCCESS .SUCCESS (samplePose 0)) "1234" ⟨true, 7⟩
        { IsConnected := false, Cam := [ERROR_CODE.OTHER 3] }).2.filter Call.isFrameData = [] ∧
      (tick (scriptedCamera true .SUCCESS .SUCCESS (samplePose 0)) "1234" ⟨true, 7⟩
        { IsConnected := false, Cam := [ERROR_CODE.OTHER 3] }).1.IsConnected = true :=
  have w := C7_transient_grab_failure (scriptedCamera true .SUCCESS .SUCCESS (samplePose 0))
    "1234" ⟨true, 7⟩ { IsConnected := false, Cam := [ERROR_CODE.OTHER 3] } []
    (scriptedCamera true .SUCCESS .SUCCESS (samplePose 0)) [] rfl (by decide) (by decide) rfl
  ⟨w.1, w.2.2.1⟩

section Startup

variable {σ R : Type}

/-- Lines written to `cout` are not counted by a recogniser of calls. -/
theorem countP_map_cout (p : Call R → Bool) (hp : ∀ t, p (.cout t) = false)
    (out : List String) : (out.map Call.cout).countP p = 0 := by
  rw [List.countP_eq_zero]
  intro c hc
  obtain ⟨t, _, rfl⟩ := List.mem_map.1 hc
  simp [hp t]

/-- When `CreateCamera` fails, `InitCamera` returns `FAILURE` at once. -/
theorem InitCamera_create_failed (Z : ZEDCamera σ R) (zed : σ) (argv : List String)
    (hc : (createOutcome Z zed).1 = false) :
    (InitCamera Z zed argv).err = .FAILURE ∧
      (InitCamera Z zed argv).calls =
        [.CreateCamera 0 true, .cout " ERROR :Create cam\n"] := by
  simp only [createOutcome] at hc
  simp [InitCamera, hc]

/-- When `Open` fails, `InitCamera` returns its code without going further. -/
theorem InitCamera_open_failed (Z : ZEDCamera σ R) (zed : σ) (argv : List String)
    (hc : (createOutcome Z zed).1 = true) (ho : (openOutcome Z zed argv).1 ≠ .SUCCESS) :
    (InitCamera Z zed argv).err = (openOutcome Z zed argv).1 ∧
      (InitCamera Z zed argv).calls =
        [.CreateCamera 0 true] ++
          (parseArgs argv initParamsAtParse "" "" 30000).out.map .cout ++
          [.Open (parseArgs argv initParamsAtParse "" "" 30000).param
            (parseArgs argv initParamsAtParse "" "" 30000).pathSVO
            (parseArgs argv initParamsAtParse "" "" 30000).ip
            (parseArgs argv initParamsAtParse "" "" 30000).port] ++
          [.cout "ERROR : Open\n"] := by
  simp only [createOutcome, openOutcome, initParamsAtParse] at hc ho
  simp [InitCamera, hc, ho, openOutcome, createOutcome, initParamsAtParse]

/-- When `Open` succeeds, `InitCamera` returns what `EnableTracking` returns. -/
theorem InitCamera_opened (Z : ZEDCamera σ R) (zed : σ) (argv : List String)
    (hc : (createOutcome Z zed).1 = true) (ho : (openOutcome Z zed argv).1 = .SUCCESS) :
    (InitCamera Z zed argv).err = (trackingOutcome Z zed argv).1 ∧
      (InitCamera Z zed argv).SubjectName =
        toString (Z.GetSerialNumber (openOutcome Z zed argv).2).1 ∧
      (InitCamera Z zed argv).calls =
        [.CreateCamera 0 true] ++
          (parseArgs argv initParamsAtParse "" "" 30000).out.map .cout ++
          [.Open (parseArgs argv initParamsAtParse "" "" 30000).param
            (parseArgs argv initParamsAtParse "" "" 30000).pathSVO
            (parseArgs argv initParamsAtParse "" "" 30000).ip
            (parseArgs argv initParamsAtParse "" "" 30000).port] ++
          [.GetSerialNumber,
            .EnableTracking { set_floor_as_origin := true, enable_pose_smoothing := true }] ++
          (if (trackingOutcome Z zed argv).1 ≠ .SUCCESS then
            [.cout " ERROR : Enable Tracking\n"] else []) := by
  simp only [createOutcome, openOutcome, initParamsAtParse] at hc ho
  by_cases ht : (trackingOutcome Z zed argv).1 = .SUCCESS
  · have ht2 := ht
    simp only [trackingOutcome, createOutcome, openOutcome, initParamsAtParse] at ht2
    simp [InitCamera, hc, ho, ht, ht2, trackingOutcome, openOutcome, createOutcome,
      initParamsAtParse]
  · have ht2 := ht
    simp only [trackingOutcome, createOutcome, openOutcome, initParamsAtParse] at ht2
    simp [InitCamera, hc, ho, ht, ht2, trackingOutcome, openOutcome, createOutcome,
      initParamsAtParse]

/-- The result of `InitCamera` is `SUCCESS` exactly when the three calls
succeeded. -/
theorem InitCamera_err_eq_success_iff (Z : ZEDCamera σ R) (zed : σ) (argv : List String) :
    (InitCamera Z zed argv).err = .SUCCESS ↔
      ((createOutcome Z zed).1 = true ∧ (openOutcome Z zed argv).1 = .SUCCESS ∧
        (trackingOutcome Z zed argv).1 = .SUCCESS) := by
  cases hc : (createOutcome Z zed).1
  · simp [(InitCamera_create_failed Z zed argv hc).1]
  · by_cases ho : (openOutcome Z zed argv).1 = .SUCCESS
    · simp [(InitCamera_opened Z zed argv hc ho).1, ho]
    · simp [(InitCamera_open_failed Z zed argv hc ho).1, ho]

/-- `InitCamera` calls `CreateCamera` once, and `Open` and `EnableTracking` at
most once each. -/
theorem InitCamera_calls_once (Z : ZEDCamera σ R) (zed : σ) (argv : List String) :
    (InitCamera Z zed argv).calls.countP Call.isCreateCamera = 1 ∧
      (InitCamera Z zed argv).calls.countP Call.isOpen ≤ 1 ∧
      (InitCamera Z zed argv).calls.countP Call.isEnableTracking ≤ 1 := by
  have e1 := countP_map_cout (R := R) Call.isCreateCamera (fun _ => rfl)
    (parseArgs argv initParamsAtParse "" "" 30000).out
  have e2 := countP_map_cout (R := R) Call.isOpen (fun _ => rfl)
    (parseArgs argv initParamsAtParse "" "" 30000).out
  have e3 := countP_map_cout (R := R) Call.isEnableTracking (fun _ => rfl)
    (parseArgs argv initParamsAtParse "" "" 30000).out
  cases hc : (createOutcome Z zed).1
  · simp [(InitCamera_create_failed Z zed argv hc).2, Call.isCreateCamera, Call.isOpen,
      Call.isEnableTracking, List.countP_cons]
  · by_cases ho : (openOutcome Z zed argv).1 = .SUCCESS
    · rw [(InitCamera_opened Z zed argv hc ho).2.2]
      simp only [List.countP_append, e1, e2, e3]
      split_ifs <;>
        simp [Call.isCreateCamera, Call.isOpen, Call.isEnableTracking, List.countP_cons]
    · rw [(InitCamera_open_failed Z zed argv hc ho).2]
      simp only [List.countP_append, e1, e2, e3]
      simp [Call.isCreateCamera, Call.isOpen, Call.isEnableTracking, List.countP_cons]

end Startup

/-- When `InitCamera` fails, `main` writes the error and returns
`EXIT_FAILURE`. -/
theorem main_of_failure {σ R : Type} [NatCast R] [Div R] (Z : ZEDCamera σ R) (zed : σ)
    (providerValid : Bool) (argv : List String) (inputs : List (TickInput R))
    (hinit : (InitCamera Z zed argv).err ≠ .SUCCESS) :
    (main Z zed providerValid argv inputs).status = .returned EXIT_FAILURE ∧
      (main Z zed providerValid argv inputs).ticks = [] ∧
      (main Z zed providerValid argv inputs).startup =
        [.cout "Starting ZEDLiveLink tool\n", .cout "Opening camera...\n", .LibInit,
            .CreateLiveLinkProvider "ZED"] ++ (InitCamera Z zed argv).calls ++
          [.coutErrorExit (InitCamera Z zed argv).err] := by
  simp [main, hinit]

/-- When `InitCamera` succeeds, `main` does not return. -/
theorem main_status_of_success {σ R : Type} [NatCast R] [Div R] (Z : ZEDCamera σ R)
    (zed : σ) (providerValid : Bool) (argv : List String) (inputs : List (TickInput R))
    (hinit : (InitCamera Z zed argv).err = .SUCCESS) :
    (main Z zed providerValid argv inputs).status ≠ .returned EXIT_FAILURE := by
  cases providerValid
  · simp only [main, hinit]
    simp only [ne_eq, not_true_eq_false, if_false]
    split_ifs <;> simp
  · rw [main_startup_of_success Z zed argv inputs hinit]
    simp

/-- When `InitCamera` succeeds and the provider is valid, `main` is in the loop
after any number of ticks and its start-up published one static descriptor. -/
theorem main_static_of_success {σ R : Type} [NatCast R] [Div R] (Z : ZEDCamera σ R)
    (zed : σ) (argv : List String) (inputs : List (TickInput R))
    (hinit : (InitCamera Z zed argv).err = .SUCCESS) :
    (main Z zed true argv inputs).status = .inLoop ∧
      (main Z zed true argv inputs).ticks.length = inputs.length ∧
      (main Z zed true argv inputs).startup.countP Call.isStaticData = 1 := by
  have hq := InitCamera_calls_quiet Z zed argv
  have h1 : List.countP Call.isStaticData ((InitCamera Z zed argv).calls : List (Call R)) = 0 := by
    rw [List.countP_eq_zero]
    intro c hc
    simp [(hq c hc).1]
  rw [main_startup_of_success Z zed argv inputs hinit]
  refine ⟨rfl, runLoop_length _ _ _ _, ?_⟩
  simp [List.countP_append, UpdateCameraStaticData, h1, Call.isStaticData, List.countP_cons]

/-- C8: `main` goes past `InitCamera` (it does not return `EXIT_FAILURE`; with
a valid provider it publishes the static descriptor and is in the loop) if and
only if `CreateCamera` returned true, `Open` returned `SUCCESS` and
`EnableTracking` returned `SUCCESS`.  If `CreateCamera` returns false
`InitCamera` returns `FAILURE` without calling `Open`; if `Open` returns an
error code `InitCamera` returns that code without calling `EnableTracking`; if
`EnableTracking` returns an error code `InitCamera` returns that code.  In each
failing case `main` returns `EXIT_FAILURE`, which is not zero, runs no tick,
has called `CreateCamera` once and `Open` and `EnableTracking` at most once, and
has published no static descriptor and made no `Grab`. -/
theorem C8_fatal_at_startup {σ R : Type} [NatCast R] [Div R] (Z : ZEDCamera σ R)
    (zed : σ) (providerValid : Bool) (argv : List String) (inputs : List (TickInput R)) :
    ((main Z zed providerValid argv inputs).status ≠ .returned EXIT_FAILURE ↔
        ((createOutcome Z zed).1 = true ∧ (openOutcome Z zed argv).1 = .SUCCESS ∧
          (trackingOutcome Z zed argv).1 = .SUCCESS)) ∧
      (((main Z zed true argv inputs).status = .inLoop ∧
          (main Z zed true argv inputs).ticks.length = inputs.length ∧
          (main Z zed true argv inputs).startup.countP Call.isStaticData = 1) ↔
        ((createOutcome Z zed).1 = true ∧ (openOutcome Z zed argv).1 = .SUCCESS ∧
          (trackingOutcome Z zed argv).1 = .SUCCESS)) ∧
      ((createOutcome Z zed).1 = false →
        (InitCamera Z zed argv).err = .FAILURE ∧
          (InitCamera Z zed argv).calls.countP Call.isOpen = 0) ∧
      ((createOutcome Z zed).1 = true → (openOutcome Z zed argv).1 ≠ .SUCCESS →
        (InitCamera Z zed argv).err = (openOutcome Z zed argv).1 ∧
          (InitCamera Z zed argv).calls.countP Call.isOpen = 1 ∧
          (InitCamera Z zed argv).calls.countP Call.isEnableTracking = 0) ∧
      ((createOutcome Z zed).1 = true → (openOutcome Z zed argv).1 = .SUCCESS →
        (trackingOutcome Z zed argv).1 ≠ .SUCCESS →
        (InitCamera Z zed argv).err = (trackingOutcome Z zed argv).1 ∧
          (InitCamera Z zed argv).calls.countP Call.isEnableTracking = 1) ∧
      (¬((createOutcome Z zed).1 = true ∧ (openOutcome Z zed argv).1 = .SUCCESS ∧
          (trackingOutcome Z zed argv).1 = .SUCCESS) →
        (main Z zed providerValid argv inputs).status = .returned EXIT_FAILURE ∧
          EXIT_FAILURE ≠ 0 ∧
          (main Z zed providerValid argv inputs).ticks = [] ∧
          (main Z zed providerValid argv inputs).calls.countP Call.isCreateCamera = 1 ∧
          (main Z zed providerValid argv inputs).calls.countP Call.isOpen ≤ 1 ∧
          (main Z zed providerValid argv inputs).calls.countP Call.isEnableTracking ≤ 1 ∧
          (main Z zed providerValid argv inputs).calls.countP Call.isStaticData = 0 ∧
          (main Z zed providerValid argv inputs).calls.countP Call.isGrab = 0) := by
  have hiff := InitCamera_err_eq_success_iff Z zed argv
  have hq := InitCamera_calls_quiet Z zed argv
  have hout := fun p hp => countP_map_cout (R := R) p hp
    (parseArgs argv initParamsAtParse "" "" 30000).out
  refine ⟨?_, ?_, ?_, ?_, ?_, ?_⟩
  · rw [← hiff]
    constructor
    · intro h
      by_contra hne
      exact h (main_of_failure Z zed providerValid argv inputs hne).1
    · exact main_status_of_success Z zed providerValid argv inputs
  · rw [← hiff]
    constructor
    · rintro ⟨h, _, _⟩
      by_contra hne
      rw [(main_of_failure Z zed true argv inputs hne).1] at h
      cases h
    · intro h
      exact main_static_of_success Z zed argv inputs h
  · intro hc
    have := InitCamera_create_failed Z zed argv hc
    simp [this.1, this.2, Call.isOpen, List.countP_cons]
  · intro hc ho
    have := InitCamera_open_failed Z zed argv hc ho
    rw [this.1, this.2]
    simp only [List.countP_append, hout Call.isOpen (fun _ => rfl),
      hout Call.isEnableTracking (fun _ => rfl)]
    simp [Call.isOpen, Call.isEnableTracking, List.countP_cons]
  · intro hc ho ht
    have := InitCamera_opened Z zed argv hc ho
    rw [this.1, this.2.2]
    simp only [List.countP_append, hout Call.isEnableTracking (fun _ => rfl)]
    simp [ht, Call.isEnableTracking, List.countP_cons]
  · intro hnot
    have hne : (InitCamera Z zed argv).err ≠ .SUCCESS := fun h => hnot (hiff.1 h)
    obtain ⟨h1, h2, h3⟩ := main_of_failure Z zed providerValid argv inputs hne
    obtain ⟨c1, c2, c3⟩ := InitCamera_calls_once Z zed argv
    have q1 : (InitCamera Z zed argv).calls.countP Call.isStaticData = 0 := by
      rw [List.countP_eq_zero]
      intro c hc
      simp [(hq c hc).1]
    have q2 : (InitCamera Z zed argv).calls.countP Call.isGrab = 0 := by
      rw [List.countP_eq_zero]
      intro c hc
      simp [(hq c hc).2.2]
    refine ⟨h1, by decide, h2, ?_, ?_, ?_, ?_, ?_⟩ <;>
      simp only [MainRun.calls, h2, h3, List.flatten_nil, List.append_nil,
        List.countP_append, c1, q1, q2] <;>
      simp [Call.isCreateCamera, Call.isOpen, Call.isEnableTracking, Call.isStaticData,
        Call.isGrab, List.countP_cons, c2, c3]

/-- Witness of C8: a camera whose creation fails, one whose opening fails with
another code, and one whose tracking fails. -/
theorem C8_fatal_at_startup_witness :
    ((InitCamera (scriptedCamera false .SUCCESS .SUCCESS (samplePose 0)) []
          ["ZEDLiveLink"]).err = .FAILURE ∧
        (InitCamera (scriptedCamera false .SUCCESS .SUCCESS (samplePose 0)) []
          ["ZEDLiveLink"]).calls.countP Call.isOpen = 0) ∧
      ((InitCamera (scriptedCamera true (.OTHER 5) .SUCCESS (samplePose 0)) []
          ["ZEDLiveLink"]).err =
          (openOutcome (scriptedCamera true (.OTHER 5) .SUCCESS (samplePose 0)) []
            ["ZEDLiveLink"]).1 ∧
        (InitCamera (scriptedCamera true (.OTHER 5) .SUCCESS (samplePose 0)) []
          ["ZEDLiveLink"]).calls.countP Call.isOpen = 1 ∧
        (InitCamera (scriptedCamera true (.OTHER 5) .SUCCESS (samplePose 0)) []
          ["ZEDLiveLink"]).calls.countP Call.isEnableTracking = 0) ∧
      (main (scriptedCamera true .SUCCESS (.OTHER 7) (samplePose 0)) [] true
        ["ZEDLiveLink"] [⟨true, 1⟩]).status = .returned EXIT_FAILURE :=
  ⟨(C8_fatal_at_startup (scriptedCamera false .SUCCESS .SUCCESS (samplePose 0)) [] true
      ["ZEDLiveLink"] [⟨true, 1⟩]).2.2.1 rfl,
    (C8_fatal_at_startup (scriptedCamera true (.OTHER 5) .SUCCESS (samplePose 0)) [] true
      ["ZEDLiveLink"] [⟨true, 1⟩]).2.2.2.1 rfl (by decide),
    ((C8_fatal_at_startup (scriptedCamera true .SUCCESS (.OTHER 7) (samplePose 0)) [] true
      ["ZEDLiveLink"] [⟨true, 1⟩]).2.2.2.2.2 (by decide)).1⟩

/-! ### Text -/

/-- A search succeeds exactly when the needle occurs in the searched text. -/
theorem findFrom_ne_npos_iff (needle hay : List Char) (pos : Nat) :
    findFrom needle hay pos ≠ npos ↔ needle <:+: hay := by
  induction hay generalizing pos with
  | nil =>
    simp only [findFrom, List.isPrefixOf_iff_prefix]
    split_ifs with h
    · simp only [npos, ne_eq, reduceCtorEq, not_false_eq_true, true_iff]
      exact h.isInfix
    · simp only [ne_eq, not_true_eq_false, false_iff]
      intro hin
      exact h (by rw [List.eq_nil_of_infix_nil hin])
  | cons c hay ih =>
    simp only [findFrom, List.isPrefixOf_iff_prefix]
    split_ifs with h
    · simp only [npos, ne_eq, reduceCtorEq, not_false_eq_true, true_iff]
      exact h.isInfix
    · rw [ih, List.infix_cons_iff]
      simp [h]

/-- The call `s.find(needle)` differs from `npos` exactly when `needle` is a
substring of `s`. -/
theorem string_find_ne_npos_iff (s needle : String) :
    string_find s needle ≠ npos ↔ needle.data <:+: s.data :=
  findFrom_ne_npos_iff needle.data s.data 0

/-- Facts about a digit character: it is a digit, not white space, not a
sign, not a letter of `.svo`. -/
theorem digitChars_spec :
    ∀ c ∈ digitChars, isdigit c = true ∧ isspace c = false ∧ c ≠ '-' ∧ c ≠ '+' ∧
      c ≠ 's' := by
  decide

/-- The digit character of a number below ten, and its value. -/
theorem digitChar_spec : ∀ k < 10, Nat.digitChar k ∈ digitChars ∧
    digitVal (Nat.digitChar k) = k := by
  decide

/-- The digits produced by `Nat.toDigitsCore` in base ten, with enough fuel:
a non-empty run of digit characters whose value is the number. -/
theorem toDigitsCore_spec (fuel : Nat) : ∀ (n : Nat) (ds : List Char), n < fuel →
    ∃ l, Nat.toDigitsCore 10 fuel n ds = l ++ ds ∧ l ≠ [] ∧ (∀ c ∈ l, c ∈ digitChars) ∧
      digitsValue 0 l = n := by
  induction fuel with
  | zero => intro n ds h; omega
  | succ fuel ih =>
    intro n ds h
    have hd := digitChar_spec (n % 10) (Nat.mod_lt _ (by decide))
    unfold Nat.toDigitsCore
    simp only []
    split_ifs with h0
    · refine ⟨[Nat.digitChar (n % 10)], rfl, by simp, by simpa using hd.1, ?_⟩
      simp only [digitsValue, List.foldl_cons, List.foldl_nil, hd.2]
      omega
    · obtain ⟨l, hl, _, hall, hval⟩ := ih (n / 10) (Nat.digitChar (n % 10) :: ds) (by omega)
      refine ⟨l ++ [Nat.digitChar (n % 10)], by simp [hl], by simp, ?_, ?_⟩
      · intro c hc
        rcases List.mem_append.1 hc with hc | hc
        · exact hall c hc
        · rw [List.mem_singleton.1 hc]; exact hd.1
      · simp only [digitsValue] at hval
        simp only [digitsValue, List.foldl_append, List.foldl_cons, List.foldl_nil, hval, hd.2]
        omega

/-- The text of `to_string n` is a non-empty run of digit characters whose
value is `n`. -/
theorem to_string_spec (n : Nat) :
    (to_string n).data ≠ [] ∧ (∀ c ∈ (to_string n).data, c ∈ digitChars) ∧
      digitsValue 0 (to_string n).data = n := by
  obtain ⟨l, hl, hne, hall, hval⟩ := toDigitsCore_spec (n + 1) n [] (Nat.lt_succ_self n)
  have : (to_string n).data = l := by
    simp [to_string, Nat.repr, Nat.toDigits, hl, List.asString]
  rw [this]
  exact ⟨hne, hall, hval⟩

/-- Scanning a run of digits followed by text that does not begin with a digit
consumes exactly the run. -/
theorem scanDigits_append (ds rest : List Char) (acc : Nat)
    (hds : ∀ c ∈ ds, c ∈ digitChars) (hrest : ∀ c ∈ rest.head?, isdigit c = false) :
    scanDigits acc (ds ++ rest) = (digitsValue acc ds, rest) := by
  induction ds generalizing acc with
  | nil =>
    cases rest with
    | nil => rfl
    | cons c r =>
      have : isdigit c = false := hrest c (by simp)
      simp [scanDigits, this, digitsValue]
  | cons d ds ih =>
    have hd := (digitChars_spec d (hds d (List.mem_cons_self _ _))).1
    have hrec := ih (acc * 10 + digitVal d) (fun c hc => hds c (List.mem_cons_of_mem _ hc))
    show scanDigits acc (d :: (ds ++ rest)) = _
    rw [scanDigits, if_pos hd, hrec]
    rfl

/-- An integer conversion applied to `to_string n` followed by text that does
not begin with a digit stores `n` (reduced to 32 bits) and leaves that text. -/
theorem scanInt_to_string (n : Nat) (rest : List Char)
    (hrest : ∀ c ∈ rest.head?, isdigit c = false) :
    scanInt ((to_string n).data ++ rest) = .ok (n % 2 ^ 32) rest := by
  obtain ⟨hne, hall, hval⟩ := to_string_spec n
  cases hds : (to_string n).data with
  | nil => exact absurd hds hne
  | cons d ds =>
    rw [hds] at hall hval
    obtain ⟨h1, h2, h3, h4, _⟩ := digitChars_spec d (hall d (List.mem_cons_self _ _))
    have hscan := scanDigits_append (d :: ds) rest 0 hall hrest
    simp only [List.cons_append] at hscan
    simp [scanInt, skipSpace, h1, h2, h3, h4, hscan, hval, word32]

/-- The characters of the text `a.b.c.d:p`. -/
theorem dottedQuadPort_data (a b c d p : Nat) :
    (dottedQuadPort a b c d p).data =
      (to_string a).data ++ '.' :: ((to_string b).data ++ '.' :: ((to_string c).data ++
        '.' :: ((to_string d).data ++ ':' :: ((to_string p).data ++ [])))) := by
  simp [dottedQuadPort, dottedQuad, String.data_append]

/-- The text `a.b.c.d:p` does not contain `.svo`. -/
theorem dottedQuadPort_no_svo (a b c d p : Nat) :
    string_find (dottedQuadPort a b c d p) ".svo" = npos := by
  by_contra hne
  have hin := (string_find_ne_npos_iff _ _).1 hne
  have hs : 's' ∈ (dottedQuadPort a b c d p).data := hin.subset (by decide)
  have hdig : ∀ n : Nat, 's' ∉ (to_string n).data := fun n hmem =>
    (digitChars_spec 's' ((to_string_spec n).2.1 's' hmem)).2.2.2.2 rfl
  rw [dottedQuadPort_data] at hs
  simp [hdig] at hs

/-- The directives of the format of an address with a port. -/
theorem parseFormat_ip_port :
    parseFormat "%u.%u.%u.%u:%d".data =
      [.u, .lit '.', .u, .lit '.', .u, .lit '.', .u, .lit ':', .d] := by
  decide

/-- Scanning the text `a.b.c.d:p` with the format of an address with a port
assigns the five numbers. -/
theorem sscanf_dottedQuadPort (a b c d p : Nat) :
    sscanf (dottedQuadPort a b c d p) "%u.%u.%u.%u:%d" =
      { ret := 5, vals := [a % 2 ^ 32, b % 2 ^ 32, c % 2 ^ 32, d % 2 ^ 32, p % 2 ^ 32] } := by
  have hdot : ∀ r : List Char, ∀ c ∈ ('.' :: r).head?, isdigit c = false := by
    intro r c hc
    simp only [List.head?_cons, Option.mem_def, Option.some.injEq] at hc
    subst hc
    decide
  have hcolon : ∀ r : List Char, ∀ c ∈ (':' :: r).head?, isdigit c = false := by
    intro r c hc
    simp only [List.head?_cons, Option.mem_def, Option.some.injEq] at hc
    subst hc
    decide
  have hnil : ∀ c ∈ ([] : List Char).head?, isdigit c = false := by simp
  simp only [sscanf, parseFormat_ip_port, dottedQuadPort_data, scanItems,
    scanInt_to_string _ _ (hdot _), scanInt_to_string _ _ (hcolon _),
    scanInt_to_string _ _ hnil, if_true]
  simp

/-- C10: when the first argument contains `.svo` as a substring, `parseArgs`
sets `input_type` to `SVO` and `pathSVO` to the argument itself, and leaves
`ip`, `port`, `resolution` and every other parameter as they were; this holds
for every such argument, also one that reads as an address or holds a
resolution token. -/
theorem C10_recorded_file_argument (prog arg : String) (rest : List String)
    (param : SL_InitParameters) (pathSVO ip : String) (port : Int)
    (h : ".svo".data <:+: arg.data) :
    (parseArgs (prog :: arg :: rest) param pathSVO ip port).param =
        { param with input_type := .SVO } ∧
      (parseArgs (prog :: arg :: rest) param pathSVO ip port).param.input_type = .SVO ∧
      (parseArgs (prog :: arg :: rest) param pathSVO ip port).pathSVO = arg ∧
      (parseArgs (prog :: arg :: rest) param pathSVO ip port).ip = ip ∧
      (parseArgs (prog :: arg :: rest) param pathSVO ip port).port = port ∧
      (parseArgs (prog :: arg :: rest) param pathSVO ip port).param.resolution =
        param.resolution := by
  have hf : string_find arg ".svo" ≠ npos := (string_find_ne_npos_iff _ _).2 h
  simp [parseArgs, hf]

/-- Witness of C10: the arguments `capture.svo` and `10.0.0.5:30000HD720.svo`. -/
theorem C10_recorded_file_argument_witness :
    (parseArgs ["ZEDLiveLink", "capture.svo"] initParamsAtParse "" "" 30000).pathSVO =
        "capture.svo" ∧
      (parseArgs ["ZEDLiveLink", "10.0.0.5:30000HD720.svo"] initParamsAtParse "" ""
        30000).param.input_type = .SVO :=
  ⟨(C10_recorded_file_argument "ZEDLiveLink" "capture.svo" [] initParamsAtParse "" "" 30000
      ⟨"capture".data, [], rfl⟩).2.2.1,
    (C10_recorded_file_argument "ZEDLiveLink" "10.0.0.5:30000HD720.svo" [] initParamsAtParse
      "" "" 30000 ⟨"10.0.0.5:30000HD720".data, [], rfl⟩).2.1⟩

/-- C9: for `a`, `b`, `c`, `d` below `2^32` and a port `p` below `2^31`, when
the first argument is the decimal text `a.b.c.d:p`, `parseArgs` sets
`input_type` to `STREAM`, `ip` to the text `a.b.c.d` and `port` to `p`, and
leaves `pathSVO`, `resolution` and every other parameter as they were. -/
theorem C9_stream_argument_with_port (prog : String) (rest : List String)
    (a b c d p : Nat) (param : SL_InitParameters) (pathSVO ip : String) (port : Int)
    (ha : a < 2 ^ 32) (hb : b < 2 ^ 32) (hc : c < 2 ^ 32) (hd : d < 2 ^ 32)
    (hp : p < 2 ^ 31) :
    (parseArgs (prog :: dottedQuadPort a b c d p :: rest) param pathSVO ip port).param =
        { param with input_type := .STREAM } ∧
      (parseArgs (prog :: dottedQuadPort a b c d p :: rest) param pathSVO ip port).ip =
        dottedQuad a b c d ∧
      (parseArgs (prog :: dottedQuadPort a b c d p :: rest) param pathSVO ip port).port =
        (p : Int) ∧
      (parseArgs (prog :: dottedQuadPort a b c d p :: rest) param pathSVO ip port).pathSVO =
        pathSVO ∧
      (parseArgs (prog :: dottedQuadPort a b c d p :: rest) param pathSVO ip
        port).param.resolution = param.resolution := by
  have ha2 : a % 4294967296 = a := Nat.mod_eq_of_lt (by omega)
  have hb2 : b % 4294967296 = b := Nat.mod_eq_of_lt (by omega)
  have hc2 : c % 4294967296 = c := Nat.mod_eq_of_lt (by omega)
  have hd2 : d % 4294967296 = d := Nat.mod_eq_of_lt (by omega)
  have hp2 : p % 4294967296 = p := Nat.mod_eq_of_lt (by omega)
  have hp32 : p % 2 ^ 32 = p := Nat.mod_eq_of_lt (by omega)
  have hport : toInt32 p = (p : Int) := by
    simp only [toInt32, hp32]
    rw [if_pos hp]
  simp [parseArgs, dottedQuadPort_no_svo, sscanf_dottedQuadPort, ha2, hb2, hc2, hd2, hp2,
    hport, dottedQuad]

/-- Witness of C9: the argument `10.0.0.5:30000`. -/
theorem C9_stream_argument_with_port_witness :
    (parseArgs ["ZEDLiveLink", "10.0.0.5:30000"] initParamsAtParse "" "" 30000).ip =
        "10.0.0.5" ∧
      (parseArgs ["ZEDLiveLink", "10.0.0.5:30000"] initParamsAtParse "" "" 30000).port =
        30000 ∧
      (parseArgs ["ZEDLiveLink", "10.0.0.5:30000"] initParamsAtParse "" ""
        30000).param.resolution = .HD1080 :=
  have w := C9_stream_argument_with_port "ZEDLiveLink" [] 10 0 0 5 30000 initParamsAtParse
    "" "" 30000 (by decide) (by decide) (by decide) (by decide) (by decide)
  ⟨w.2.1, w.2.2.1, w.2.2.2.2⟩

/-! ### Resolution tokens, address without port, no argument -/

/-- C11: when the first argument is exactly one of the tokens `HD2K`, `HD1080`,
`HD720`, `VGA`, `parseArgs` sets `resolution` to the value of the same name and
leaves `input_type`, `pathSVO`, `ip`, `port` and every other parameter as they
were on entry (with the values of `InitCamera`: no path, no ip, port 30000). -/
theorem C11_resolution_override (prog : String) (rest : List String)
    (param : SL_InitParameters) (pathSVO ip : String) (port : Int) :
    (parseArgs (prog :: "HD2K" :: rest) param pathSVO ip port =
        { param := { param with resolution := .HD2K }, pathSVO := pathSVO, ip := ip
          port := port, out := ["[Sample] Using Camera in resolution HD2K\n"] }) ∧
      (parseArgs (prog :: "HD1080" :: rest) param pathSVO ip port =
        { param := { param with resolution := .HD1080 }, pathSVO := pathSVO, ip := ip
          port := port, out := ["[Sample] Using Camera in resolution HD1080\n"] }) ∧
      (parseArgs (prog :: "HD720" :: rest) param pathSVO ip port =
        { param := { param with resolution := .HD720 }, pathSVO := pathSVO, ip := ip
          port := port, out := ["[Sample] Using Camera in resolution HD720\n"] }) ∧
      (parseArgs (prog :: "VGA" :: rest) param pathSVO ip port =
        { param := { param with resolution := .VGA }, pathSVO := pathSVO, ip := ip
          port := port, out := ["[Sample] Using Camera in resolution VGA\n"] }) ∧
      ((parseArgs (prog :: "HD720" :: rest) initParamsAtParse "" "" 30000).param.resolution
          = .HD720 ∧
        (parseArgs (prog :: "HD720" :: rest) initParamsAtParse "" "" 30000).param.input_type
          = defaultInputType ∧
        (parseArgs (prog :: "HD720" :: rest) initParamsAtParse "" "" 30000).pathSVO = "" ∧
        (parseArgs (prog :: "HD720" :: rest) initParamsAtParse "" "" 30000).ip = "" ∧
        (parseArgs (prog :: "HD720" :: rest) initParamsAtParse "" "" 30000).port = 30000) := by
  have svo2K : string_find "HD2K" ".svo" = npos := by decide
  have svo1080 : string_find "HD1080" ".svo" = npos := by decide
  have svo720 : string_find "HD720" ".svo" = npos := by decide
  have svoVGA : string_find "VGA" ".svo" = npos := by decide
  have s5_2K : (sscanf "HD2K" "%u.%u.%u.%u:%d").ret ≠ 5 := by decide
  have s5_1080 : (sscanf "HD1080" "%u.%u.%u.%u:%d").ret ≠ 5 := by decide
  have s5_720 : (sscanf "HD720" "%u.%u.%u.%u:%d").ret ≠ 5 := by decide
  have s5_VGA : (sscanf "VGA" "%u.%u.%u.%u:%d").ret ≠ 5 := by decide
  have s4_2K : (sscanf "HD2K" "%u.%u.%u.%u").ret ≠ 4 := by decide
  have s4_1080 : (sscanf "HD1080" "%u.%u.%u.%u").ret ≠ 4 := by decide
  have s4_720 : (sscanf "HD720" "%u.%u.%u.%u").ret ≠ 4 := by decide
  have s4_VGA : (sscanf "VGA" "%u.%u.%u.%u").ret ≠ 4 := by decide
  have f1 : string_find "HD2K" "HD2K" ≠ npos := by decide
  have f2 : string_find "HD1080" "HD2K" = npos := by decide
  have f3 : string_find "HD1080" "HD1080" ≠ npos := by decide
  have f4 : string_find "HD720" "HD2K" = npos := by decide
  have f5 : string_find "HD720" "HD1080" = npos := by decide
  have f6 : string_find "HD720" "HD720" ≠ npos := by decide
  have f7 : string_find "VGA" "HD2K" = npos := by decide
  have f8 : string_find "VGA" "HD1080" = npos := by decide
  have f9 : string_find "VGA" "HD720" = npos := by decide
  have f10 : string_find "VGA" "VGA" ≠ npos := by decide
  have h720 : parseArgs (prog :: "HD720" :: rest) initParamsAtParse "" "" 30000 =
      { param := { initParamsAtParse with resolution := .HD720 }, pathSVO := "", ip := ""
        port := 30000, out := ["[Sample] Using Camera in resolution HD720\n"] } := by
    simp [parseArgs, svo720, s5_720, s4_720, f4, f5, f6]
  refine ⟨?_, ?_, ?_, ?_, ?_⟩
  · simp [parseArgs, svo2K, s5_2K, s4_2K, f1]
  · simp [parseArgs, svo1080, s5_1080, s4_1080, f2, f3]
  · simp [parseArgs, svo720, s5_720, s4_720, f4, f5, f6]
  · simp [parseArgs, svoVGA, s5_VGA, s4_VGA, f7, f8, f9, f10]
  · rw [h720]
    exact ⟨rfl, rfl, rfl, rfl, rfl⟩

/-- Lines written to `cout` are dropped by a filter on calls. -/
theorem filter_map_cout {R : Type} (p : Call R → Bool) (hp : ∀ t, p (.cout t) = false)
    (out : List String) : (out.map Call.cout).filter p = [] := by
  rw [List.filter_eq_nil_iff]
  intro c hc
  obtain ⟨t, _, rfl⟩ := List.mem_map.1 hc
  simp [hp t]

/-- The `Open` calls of `InitCamera`: none when `CreateCamera` fails, otherwise
exactly one, with the variables as `parseArgs` left them. -/
theorem InitCamera_calls_filter_isOpen {σ R : Type} (Z : ZEDCamera σ R) (zed : σ)
    (argv : List String) :
    (InitCamera Z zed argv).calls.filter Call.isOpen =
      if (createOutcome Z zed).1 = true then
        [.Open (parseArgs argv initParamsAtParse "" "" 30000).param
          (parseArgs argv initParamsAtParse "" "" 30000).pathSVO
          (parseArgs argv initParamsAtParse "" "" 30000).ip
          (parseArgs argv initParamsAtParse "" "" 30000).port]
      else [] := by
  have e := filter_map_cout (R := R) Call.isOpen (fun _ => rfl)
    (parseArgs argv initParamsAtParse "" "" 30000).out
  cases hc : (createOutcome Z zed).1
  · simp [(InitCamera_create_failed Z zed argv hc).2, Call.isOpen, List.filter_cons]
  · by_cases ho : (openOutcome Z zed argv).1 = .SUCCESS
    · rw [(InitCamera_opened Z zed argv hc ho).2.2]
      simp only [List.filter_append, e]
      split_ifs <;> simp [Call.isOpen, List.filter_cons]
    · rw [(InitCamera_open_failed Z zed argv hc ho).2]
      simp only [List.filter_append, e]
      simp [Call.isOpen, List.filter_cons]

/-- The characters of the text `a.b.c.d`. -/
theorem dottedQuad_data (a b c d : Nat) :
    (dottedQuad a b c d).data =
      (to_string a).data ++ '.' :: ((to_string b).data ++ '.' :: ((to_string c).data ++
        '.' :: ((to_string d).data ++ []))) := by
  simp [dottedQuad, String.data_append]

/-- The text `a.b.c.d` does not contain `.svo`. -/
theorem dottedQuad_no_svo (a b c d : Nat) :
    string_find (dottedQuad a b c d) ".svo" = npos := by
  by_contra hne
  have hin := (string_find_ne_npos_iff _ _).1 hne
  have hs : 's' ∈ (dottedQuad a b c d).data := hin.subset (by decide)
  have hdig : ∀ n : Nat, 's' ∉ (to_string n).data := fun n hmem =>
    (digitChars_spec 's' ((to_string_spec n).2.1 's' hmem)).2.2.2.2 rfl
  rw [dottedQuad_data] at hs
  simp [hdig] at hs

/-- The directives of the format of an address without port. -/
theorem parseFormat_ip :
    parseFormat "%u.%u.%u.%u".data = [.u, .lit '.', .u, .lit '.', .u, .lit '.', .u] := by
  decide

/-- Scanning the text `a.b.c.d` assigns four items with either format: the
format with a port stops at the missing colon. -/
theorem sscanf_dottedQuad (a b c d : Nat) :
    (sscanf (dottedQuad a b c d) "%u.%u.%u.%u:%d").ret = 4 ∧
      (sscanf (dottedQuad a b c d) "%u.%u.%u.%u").ret = 4 := by
  have hdot : ∀ r : List Char, ∀ c ∈ ('.' :: r).head?, isdigit c = false := by
    intro r c hc
    simp only [List.head?_cons, Option.mem_def, Option.some.injEq] at hc
    subst hc
    decide
  have hnil : ∀ c ∈ ([] : List Char).head?, isdigit c = false := by simp
  constructor
  · simp only [sscanf, parseFormat_ip_port, dottedQuad_data, scanItems,
      scanInt_to_string _ _ (hdot _), scanInt_to_string _ _ hnil]
    simp
  · simp only [sscanf, parseFormat_ip, dottedQuad_data, scanItems,
      scanInt_to_string _ _ (hdot _), scanInt_to_string _ _ hnil]
    simp

/-- C12: for all naturals `a`, `b`, `c`, `d` (those below `2^32` included),
when the first argument is the decimal text `a.b.c.d` without port, `parseArgs`
sets `input_type` to `STREAM` and `ip` to the argument, and leaves `port`,
`pathSVO`, `resolution` and every other parameter as they were on entry; the
port on entry is the 30000 that `InitCamera` sets, so when the camera is
created `Open` is called once, with that address and port 30000. -/
theorem C12_ip_only_keeps_default_port {σ R : Type} (Z : ZEDCamera σ R) (zed : σ)
    (prog : String) (rest : List String) (a b c d : Nat) (param : SL_InitParameters)
    (pathSVO ip : String) (port : Int) (hcreated : (createOutcome Z zed).1 = true) :
    parseArgs (prog :: dottedQuad a b c d :: rest) param pathSVO ip port =
        { param := { param with input_type := .STREAM }
          pathSVO := pathSVO
          ip := dottedQuad a b c d
          port := port
          out := ["[Sample] Using Stream input, IP : " ++ dottedQuad a b c d ++ "\n"] } ∧
      (InitCamera Z zed (prog :: dottedQuad a b c d :: rest)).calls.filter Call.isOpen =
        [.Open { initParamsAtParse with input_type := .STREAM } "" (dottedQuad a b c d)
          30000] := by
  have hparse : ∀ (q : SL_InitParameters) (path i : String) (pt : Int),
      parseArgs (prog :: dottedQuad a b c d :: rest) q path i pt =
        { param := { q with input_type := .STREAM }
          pathSVO := path
          ip := dottedQuad a b c d
          port := pt
          out := ["[Sample] Using Stream input, IP : " ++ dottedQuad a b c d ++ "\n"] } := by
    intro q path i pt
    simp [parseArgs, dottedQuad_no_svo, (sscanf_dottedQuad a b c d).1,
      (sscanf_dottedQuad a b c d).2]
  refine ⟨hparse _ _ _ _, ?_⟩
  rw [InitCamera_calls_filter_isOpen, if_pos hcreated, hparse]

/-- Witness of C12: the argument `192.168.1.20` on the two-frame recording. -/
theorem C12_ip_only_keeps_default_port_witness :
    (parseArgs ["ZEDLiveLink", "192.168.1.20"] initParamsAtParse "" "" 30000).ip =
        "192.168.1.20" ∧
      (parseArgs ["ZEDLiveLink", "192.168.1.20"] initParamsAtParse "" "" 30000).port =
        30000 ∧
      (InitCamera (svoCamera sampleFrames 1234) ⟨0, samplePose 0⟩
          ["ZEDLiveLink", "192.168.1.20"]).calls.filter Call.isOpen =
        [.Open { initParamsAtParse with input_type := .STREAM } "" "192.168.1.20" 30000] :=
  have w := C12_ip_only_keeps_default_port (svoCamera sampleFrames 1234)
    ⟨0, samplePose 0⟩ "ZEDLiveLink" [] 192 168 1 20 initParamsAtParse "" "" 30000 rfl
  ⟨congrArg ParseArgsResult.ip w.1, congrArg ParseArgsResult.port w.1, w.2⟩

/-- C13: with no argument (`argc <= 1`) `parseArgs` writes nothing and changes
nothing, so when the camera is created `InitCamera` calls `Open` once, with
resolution `HD1080`, 30 frames per second, depth mode `ULTRA`, coordinate
system `LEFT_HANDED_Z_UP`, unit `CENTIMETER`, the default input type, an empty
SVO path, an empty ip and port 30000. -/
theorem C13_no_argument_defaults {σ R : Type} (Z : ZEDCamera σ R) (zed : σ)
    (argv : List String) (param : SL_InitParameters) (pathSVO ip : String) (port : Int)
    (hargc : argv.length ≤ 1) (hcreated : (createOutcome Z zed).1 = true) :
    parseArgs argv param pathSVO ip port =
        { param := param, pathSVO := pathSVO, ip := ip, port := port, out := [] } ∧
      (InitCamera Z zed argv).calls.filter Call.isOpen =
        [.Open
          { input_type := defaultInputType
            resolution := .HD1080
            camera_fps := 30
            coordinate_system := .LEFT_HANDED_Z_UP
            coordinate_unit := .CENTIMETER
            depth_mode := .ULTRA
            sdk_verbose := 1 } "" "" 30000] := by
  have hparse : ∀ (q : SL_InitParameters) (path i : String) (pt : Int),
      parseArgs argv q path i pt =
        { param := q, pathSVO := path, ip := i, port := pt, out := [] } := by
    intro q path i pt
    have : ¬ argv.length > 1 := by omega
    simp [parseArgs, this]
  refine ⟨hparse _ _ _ _, ?_⟩
  rw [InitCamera_calls_filter_isOpen, if_pos hcreated, hparse]
  rfl

/-- Witness of C13: the program started with its name alone. -/
theorem C13_no_argument_defaults_witness :
    (InitCamera (svoCamera sampleFrames 1234) ⟨0, samplePose 0⟩
        ["ZEDLiveLink"]).calls.filter Call.isOpen =
      [.Open
        { input_type := defaultInputType
          resolution := .HD1080
          camera_fps := 30
          coordinate_system := .LEFT_HANDED_Z_UP
          coordinate_unit := .CENTIMETER
          depth_mode := .ULTRA
          sdk_verbose := 1 } "" "" 30000] :=
  (C13_no_argument_defaults (svoCamera sampleFrames 1234) ⟨0, samplePose 0⟩
    ["ZEDLiveLink"] initParamsAtParse "" "" 30000 (by decide) rfl).2

/-! ### Arguments that match nothing -/

/-- A scan assigns at most as many items as its format has conversions. -/
theorem scanItems_length_le (fmt : List Directive) :
    ∀ s : List Char, (scanItems fmt s).1.length ≤ conversions fmt := by
  induction fmt with
  | nil => intro s; simp [scanItems]
  | cons dir fmt ih =>
    intro s
    cases dir with
    | lit c =>
      cases s with
      | nil => simp [scanItems]
      | cons x t =>
        simp only [scanItems, conversions]
        split_ifs
        · exact ih t
        · simp
    | u =>
      simp only [scanItems, conversions]
      cases scanInt s with
      | inputFailure => simp
      | matchFailure => simp
      | ok w r => simpa using ih r
    | d =>
      simp only [scanItems, conversions]
      cases scanInt s with
      | inputFailure => simp
      | matchFailure => simp
      | ok w r => simpa using ih r

/-- A scan with a longer format assigns, among the conversions of the shorter
format, no more than the scan with the shorter format does. -/
theorem scanItems_append_ge (f1 f2 : List Directive) :
    ∀ s : List Char,
      min (conversions f1) (scanItems (f1 ++ f2) s).1.length ≤ (scanItems f1 s).1.length := by
  induction f1 with
  | nil => intro s; simp [conversions]
  | cons dir fmt ih =>
    intro s
    cases dir with
    | lit c =>
      cases s with
      | nil => simp [scanItems]
      | cons x t =>
        simp only [List.cons_append, scanItems, conversions]
        split_ifs
        · exact ih t
        · simp
    | u =>
      simp only [List.cons_append, scanItems, conversions]
      cases scanInt s with
      | inputFailure => simp
      | matchFailure => simp
      | ok w r =>
        have := ih r
        simp only [List.length_cons, List.append_eq]
        omega
    | d =>
      simp only [List.cons_append, scanItems, conversions]
      cases scanInt s with
      | inputFailure => simp
      | matchFailure => simp
      | ok w r =>
        have := ih r
        simp only [List.length_cons, List.append_eq]
        omega

/-- The return value of `sscanf` with the format of an address with a port, in
terms of the scan of its directives. -/
theorem sscanf_ret_ip_port (arg : String) :
    (sscanf arg "%u.%u.%u.%u:%d").ret =
      if (scanItems [.u, .lit '.', .u, .lit '.', .u, .lit '.', .u, .lit ':', .d] arg.data).1
          = [] ∧
        (scanItems [.u, .lit '.', .u, .lit '.', .u, .lit '.', .u, .lit ':', .d] arg.data).2
          = true
      then EOF
      else ((scanItems [.u, .lit '.', .u, .lit '.', .u, .lit '.', .u, .lit ':', .d]
        arg.data).1.length : Int) := by
  rw [sscanf, parseFormat_ip_port]

/-- The return value of `sscanf` with the format of an address without port,
in terms of the scan of its directives. -/
theorem sscanf_ret_ip (arg : String) :
    (sscanf arg "%u.%u.%u.%u").ret =
      if (scanItems [.u, .lit '.', .u, .lit '.', .u, .lit '.', .u] arg.data).1 = [] ∧
        (scanItems [.u, .lit '.', .u, .lit '.', .u, .lit '.', .u] arg.data).2 = true
      then EOF
      else ((scanItems [.u, .lit '.', .u, .lit '.', .u, .lit '.', .u]
        arg.data).1.length : Int) := by
  rw [sscanf, parseFormat_ip]

/-- When the format with a port assigns five items, the format without port
assigns four. -/
theorem sscanf_ip_of_sscanf_ip_port (arg : String)
    (h : (sscanf arg "%u.%u.%u.%u:%d").ret = 5) : (sscanf arg "%u.%u.%u.%u").ret = 4 := by
  have hle := scanItems_length_le [.u, .lit '.', .u, .lit '.', .u, .lit '.', .u] arg.data
  have hge := scanItems_append_ge [.u, .lit '.', .u, .lit '.', .u, .lit '.', .u]
    [.lit ':', .d] arg.data
  rw [sscanf_ret_ip_port] at h
  have h5 : (scanItems ([.u, .lit '.', .u, .lit '.', .u, .lit '.', .u] ++ [.lit ':', .d])
      arg.data).1.length = 5 := by
    split_ifs at h
    · simp [EOF] at h
    · exact_mod_cast h
  have h4 : (scanItems [.u, .lit '.', .u, .lit '.', .u, .lit '.', .u] arg.data).1.length
      = 4 := by
    simp only [conversions] at hle hge
    rw [h5] at hge
    simp at hge
    omega
  have hne : (scanItems [.u, .lit '.', .u, .lit '.', .u, .lit '.', .u] arg.data).1 ≠ [] := by
    intro hnil
    rw [hnil] at h4
    simp at h4
  rw [sscanf_ret_ip, if_neg (fun hand => hne hand.1), h4]
  rfl

/-- C14, as stated, fails: `HD720p` and `1.2.3.4xyz` contain no `.svo`, are no
dotted quad with optional port and equal none of the four tokens, yet for the
first `parseArgs` writes a line and changes the resolution, and for the second
it writes a line and sets the input type and the ip. -/
theorem C14_counterexample :
    (string_find "HD720p" ".svo" = npos ∧ isDottedQuadOptPort "HD720p" = false ∧
        "HD720p" ∉ resolutionTokens ∧
        (parseArgs ["ZEDLiveLink", "HD720p"] initParamsAtParse "" "" 30000).out ≠ [] ∧
        (parseArgs ["ZEDLiveLink", "HD720p"] initParamsAtParse "" "" 30000).param.resolution
          ≠ initParamsAtParse.resolution) ∧
      (string_find "1.2.3.4xyz" ".svo" = npos ∧ isDottedQuadOptPort "1.2.3.4xyz" = false ∧
        "1.2.3.4xyz" ∉ resolutionTokens ∧
        (parseArgs ["ZEDLiveLink", "1.2.3.4xyz"] initParamsAtParse "" "" 30000).out ≠ [] ∧
        (parseArgs ["ZEDLiveLink", "1.2.3.4xyz"] initParamsAtParse "" ""
          30000).param.input_type ≠ initParamsAtParse.input_type ∧
        (parseArgs ["ZEDLiveLink", "1.2.3.4xyz"] initParamsAtParse "" "" 30000).ip ≠ "") := by
  decide

/-- C14, amended: when the first argument does not contain `.svo`, is not read
by `sscanf` with `%u.%u.%u.%u` as four numbers (so that neither scan of
`parseArgs` succeeds) and contains none of the tokens `HD2K`, `HD1080`,
`HD720`, `VGA` as a substring, `parseArgs` writes nothing and leaves
`input_type`, `resolution`, `pathSVO`, `ip`, `port` and every other parameter
exactly as they were on entry. -/
theorem C14_unrecognized_argument_ignored (prog arg : String) (rest : List String)
    (param : SL_InitParameters) (pathSVO ip : String) (port : Int)
    (hsvo : ¬ ".svo".data <:+: arg.data)
    (hscan : (sscanf arg "%u.%u.%u.%u").ret ≠ 4)
    (h2K : ¬ "HD2K".data <:+: arg.data) (h1080 : ¬ "HD1080".data <:+: arg.data)
    (h720 : ¬ "HD720".data <:+: arg.data) (hVGA : ¬ "VGA".data <:+: arg.data) :
    parseArgs (prog :: arg :: rest) param pathSVO ip port =
      { param := param, pathSVO := pathSVO, ip := ip, port := port, out := [] } := by
  have e0 : string_find arg ".svo" = npos :=
    not_not.1 (fun hne => hsvo ((string_find_ne_npos_iff _ _).1 hne))
  have e1 : string_find arg "HD2K" = npos :=
    not_not.1 (fun hne => h2K ((string_find_ne_npos_iff _ _).1 hne))
  have e2 : string_find arg "HD1080" = npos :=
    not_not.1 (fun hne => h1080 ((string_find_ne_npos_iff _ _).1 hne))
  have e3 : string_find arg "HD720" = npos :=
    not_not.1 (fun hne => h720 ((string_find_ne_npos_iff _ _).1 hne))
  have e4 : string_find arg "VGA" = npos :=
    not_not.1 (fun hne => hVGA ((string_find_ne_npos_iff _ _).1 hne))
  have h5 : (sscanf arg "%u.%u.%u.%u:%d").ret ≠ 5 :=
    fun h => hscan (sscanf_ip_of_sscanf_ip_port arg h)
  simp [parseArgs, e0, e1, e2, e3, e4, h5, hscan]

/-- Witness of the amended C14: the argument `--help`. -/
theorem C14_unrecognized_argument_ignored_witness :
    parseArgs ["ZEDLiveLink", "--help"] initParamsAtParse "" "" 30000 =
      { param := initParamsAtParse, pathSVO := "", ip := "", port := 30000, out := [] } :=
  C14_unrecognized_argument_ignored "ZEDLiveLink" "--help" [] initParamsAtParse "" "" 30000
    (fun h => (string_find_ne_npos_iff "--help" ".svo").2 h (by decide))
    (by decide)
    (fun h => (string_find_ne_npos_iff "--help" "HD2K").2 h (by decide))
    (fun h => (string_find_ne_npos_iff "--help" "HD1080").2 h (by decide))
    (fun h => (string_find_ne_npos_iff "--help" "HD720").2 h (by decide))
    (fun h => (string_find_ne_npos_iff "--help" "VGA").2 h (by decide))

/-! ### One argument, exclusive sources, untouched settings -/

/-- With at least one argument, the result of `parseArgs` is a function of
`argv[1]` alone. -/
theorem parseArgs_cons_cons (prog arg : String) (rest : List String)
    (param : SL_InitParameters) (pathSVO ip : String) (port : Int) :
    parseArgs (prog :: arg :: rest) param pathSVO ip port =
      parseArgs ["", arg] param pathSVO ip port := by
  simp [parseArgs]

/-- C15: two argument vectors with `argc > 1` that agree on `argv[1]` give the
same `input_type`, `resolution`, `pathSVO`, `ip` and `port` (the same whole
result, lines written included): `argv[0]` and the arguments at positions 2 and
beyond have no influence. -/
theorem C15_at_most_one_argument (argv1 argv2 : List String) (param : SL_InitParameters)
    (pathSVO ip : String) (port : Int) (h1 : 1 < argv1.length) (h2 : 1 < argv2.length)
    (heq : argv1[1]? = argv2[1]?) :
    parseArgs argv1 param pathSVO ip port = parseArgs argv2 param pathSVO ip port := by
  match argv1, argv2, h1, h2 with
  | p1 :: a1 :: r1, p2 :: a2 :: r2, _, _ =>
    simp only [List.getElem?_cons_succ, List.getElem?_cons_zero, Option.some.injEq] at heq
    subst heq
    rw [parseArgs_cons_cons p1, parseArgs_cons_cons p2]

/-- Witness of C15: `HD720` followed by `capture.svo` is read as `HD720`
alone. -/
theorem C15_at_most_one_argument_witness :
    parseArgs ["ZEDLiveLink", "HD720", "capture.svo"] initParamsAtParse "" "" 30000 =
      parseArgs ["ZEDLiveLink", "HD720"] initParamsAtParse "" "" 30000 :=
  C15_at_most_one_argument ["ZEDLiveLink", "HD720", "capture.svo"] ["ZEDLiveLink", "HD720"]
    initParamsAtParse "" "" 30000 (by decide) (by decide) rfl

/-! ### Disconnection and the endless loop -/

/-- The second line of the "connected" event is not the "disconnected" line. -/
theorem added_ne_disconnectedText (SubjectName : FName) :
    ("ZED Camera added : " ++ SubjectName ++ "\n") ≠ disconnectedText := by
  intro h
  have h2 := congrArg String.data h
  simp [disconnectedText, String.data_append] at h2

/-- The lines of the "connected" event hold no "disconnected" event. -/
theorem connectedLines_countP_isDisconnectedEvent {R : Type} (b : Bool)
    (SubjectName : FName) :
    (connectedLines b SubjectName : List (Call R)).countP Call.isDisconnectedEvent = 0 := by
  have hne : connectedText ≠ disconnectedText := by decide
  cases b <;>
    simp [connectedLines, Call.isDisconnectedEvent, added_ne_disconnectedText, hne]

section Disconnect

variable {σ R : Type} [NatCast R] [Div R]

/-- A tick emits the "disconnected" event once when it observes no connection
while `IsConnected` is set, and never otherwise. -/
theorem tick_countP_isDisconnectedEvent (Z : ZEDCamera σ R) (SubjectName : FName)
    (inp : TickInput R) (s : LoopState σ) :
    (tick Z SubjectName inp s).2.countP Call.isDisconnectedEvent =
      if s.IsConnected && !inp.HasConnection then 1 else 0 := by
  cases h : inp.HasConnection
  · cases hc : s.IsConnected <;>
      simp [tick_disconnected Z SubjectName inp s h, hc, Call.isDisconnectedEvent,
        disconnectedText]
  · have hz : (if s.IsConnected && !true then 1 else 0) = 0 := by simp
    rw [hz]
    by_cases h1 : (Z.Grab { reference_frame := .WORLD } s.Cam).1 = .SUCCESS
    · rw [tick_success Z SubjectName inp s h h1, List.countP_append,
        connectedLines_countP_isDisconnectedEvent]
      simp [Call.isDisconnectedEvent, List.countP_cons]
    · by_cases h2 : (Z.Grab { reference_frame := .WORLD } s.Cam).1 = .END_OF_SVOFILE_REACHED
      · rw [tick_end_of_svo Z SubjectName inp s h h2, List.countP_append,
          connectedLines_countP_isDisconnectedEvent]
        simp [Call.isDisconnectedEvent, List.countP_cons, disconnectedText]
      · rw [tick_grab_failed Z SubjectName inp s h h1 h2, List.countP_append,
          connectedLines_countP_isDisconnectedEvent]
        simp [Call.isDisconnectedEvent, List.countP_cons, disconnectedText]

/-- The "disconnected" events of a run are the changes from connection to no
connection in the observed sequence. -/
theorem runLoop_countP_isDisconnectedEvent (Z : ZEDCamera σ R) (SubjectName : FName)
    (inputs : List (TickInput R)) (s : LoopState σ) :
    (runLoop Z SubjectName inputs s).2.flatten.countP Call.isDisconnectedEvent =
      fallingEdges s.IsConnected (inputs.map fun i => i.HasConnection) := by
  induction inputs generalizing s with
  | nil => rfl
  | cons inp rest ih =>
    simp only [runLoop, List.flatten_cons, List.countP_append, ih, List.map_cons,
      fallingEdges, tick_countP_isDisconnectedEvent, tick_IsConnected]

end Disconnect

/-- C16: on a tick on which `HasConnection()` returns false, if `IsConnected`
is set the tick clears it, writes the "disconnected" line once and does
nothing else (no call, camera untouched); if `IsConnected` is already clear
the tick does nothing at all and the state is unchanged.  After every tick
`IsConnected` is the connection value the tick observed, and in a run started
from `IsConnected = false` the number of "disconnected" events equals the
number of changes from true to false in the observed `HasConnection`
sequence. -/
theorem C16_disconnect_handling {σ R : Type} [NatCast R] [Div R] (Z : ZEDCamera σ R)
    (SubjectName : FName) (inp : TickInput R) (s : LoopState σ)
    (inputs : List (TickInput R)) (cam0 : σ) (h : inp.HasConnection = false) :
    (s.IsConnected = true →
        tick Z SubjectName inp s =
          ({ IsConnected := false, Cam := s.Cam }, [.cout disconnectedText]) ∧
        (tick Z SubjectName inp s).2.countP Call.isDisconnectedEvent = 1) ∧
      (s.IsConnected = false → tick Z SubjectName inp s = (s, [])) ∧
      (∀ (i : TickInput R) (t : LoopState σ),
        (tick Z SubjectName i t).1.IsConnected = i.HasConnection) ∧
      (runLoop Z SubjectName inputs { IsConnected := false, Cam := cam0 }).2.flatten.countP
          Call.isDisconnectedEvent =
        fallingEdges false (inputs.map fun i => i.HasConnection) := by
  refine ⟨?_, ?_, tick_IsConnected Z SubjectName, runLoop_countP_isDisconnectedEvent Z
    SubjectName inputs _⟩
  · intro hc
    refine ⟨?_, ?_⟩
    · rw [tick_disconnected Z SubjectName inp s h, if_pos hc]
      rfl
    · rw [tick_countP_isDisconnectedEvent, hc, h]
      rfl
  · intro hc
    rw [tick_disconnected Z SubjectName inp s h, if_neg (by simp [hc])]

/-- Witness of C16: a tick without a connection after a connected one, and a
run that loses the connection twice. -/
theorem C16_disconnect_handling_witness :
    tick (svoCamera sampleFrames 1234) "1234" ⟨false, 5⟩
        { IsConnected := true, Cam := ⟨1, samplePose 10⟩ } =
      ({ IsConnected := false, Cam := ⟨1, samplePose 10⟩ }, [.cout disconnectedText]) ∧
      (runLoop (svoCamera sampleFrames 1234) "1234"
          [⟨true, 1⟩, ⟨false, 2⟩, ⟨false, 3⟩, ⟨true, 4⟩, ⟨false, 5⟩]
          { IsConnected := false, Cam := ⟨0, samplePose 0⟩ }).2.flatten.countP
          Call.isDisconnectedEvent =
        fallingEdges false (([⟨true, 1⟩, ⟨false, 2⟩, ⟨false, 3⟩, ⟨true, 4⟩, ⟨false, 5⟩] :
          List (TickInput Int)).map fun i => i.HasConnection) :=
  have w := C16_disconnect_handling (svoCamera sampleFrames 1234) "1234" ⟨false, 5⟩
    { IsConnected := true, Cam := ⟨1, samplePose 10⟩ }
    [⟨true, 1⟩, ⟨false, 2⟩, ⟨false, 3⟩, ⟨true, 4⟩, ⟨false, 5⟩] ⟨0, samplePose 0⟩ rfl
  ⟨(w.1 rfl).1, w.2.2.2⟩

section Endless

variable {σ R : Type} [NatCast R] [Div R]

/-- No tick calls `DisableTracking` or `Close`. -/
theorem tick_no_shutdown (Z : ZEDCamera σ R) (SubjectName : FName) (inp : TickInput R)
    (s : LoopState σ) :
    ∀ c ∈ (tick Z SubjectName inp s).2, c.isDisableTracking = false ∧ c.isClose = false := by
  have hl : ∀ c ∈ (connectedLines s.IsConnected SubjectName : List (Call R)),
      c.isDisableTracking = false ∧ c.isClose = false := by
    cases s.IsConnected <;> simp [connectedLines, Call.isDisableTracking, Call.isClose]
  cases h : inp.HasConnection
  · rw [tick_disconnected Z SubjectName inp s h]
    split_ifs <;> simp [Call.isDisableTracking, Call.isClose]
  · by_cases h1 : (Z.Grab { reference_frame := .WORLD } s.Cam).1 = .SUCCESS
    · rw [tick_success Z SubjectName inp s h h1]
      refine List.forall_mem_append.2 ⟨hl, ?_⟩
      simp [Call.isDisableTracking, Call.isClose]
    · by_cases h2 : (Z.Grab { reference_frame := .WORLD } s.Cam).1 = .END_OF_SVOFILE_REACHED
      · rw [tick_end_of_svo Z SubjectName inp s h h2]
        refine List.forall_mem_append.2 ⟨hl, ?_⟩
        simp [Call.isDisableTracking, Call.isClose]
      · rw [tick_grab_failed Z SubjectName inp s h h1 h2]
        refine List.forall_mem_append.2 ⟨hl, ?_⟩
        simp [Call.isDisableTracking, Call.isClose]

/-- No tick of a run calls `DisableTracking` or `Close`. -/
theorem runLoop_no_shutdown (Z : ZEDCamera σ R) (SubjectName : FName)
    (inputs : List (TickInput R)) (s : LoopState σ) :
    ∀ t ∈ (runLoop Z SubjectName inputs s).2, ∀ c ∈ t,
      c.isDisableTracking = false ∧ c.isClose = false := by
  induction inputs generalizing s with
  | nil => simp [runLoop]
  | cons inp rest ih =>
    intro t ht
    simp only [runLoop, List.mem_cons] at ht
    rcases ht with rfl | ht
    · exact tick_no_shutdown Z SubjectName inp s
    · exact ih _ t ht

/-- A run over more inputs continues the run over the first ones from the
state it reached. -/
theorem runLoop_append (Z : ZEDCamera σ R) (SubjectName : FName)
    (inputs more : List (TickInput R)) (s : LoopState σ) :
    runLoop Z SubjectName (inputs ++ more) s =
      ((runLoop Z SubjectName more (runLoop Z SubjectName inputs s).1).1,
        (runLoop Z SubjectName inputs s).2 ++
          (runLoop Z SubjectName more (runLoop Z SubjectName inputs s).1).2) := by
  induction inputs generalizing s with
  | nil => simp [runLoop]
  | cons inp rest ih => simp [runLoop, ih]

/-- `main` never returns `EXIT_SUCCESS`. -/
theorem main_status_ne_exit_success (Z : ZEDCamera σ R) (zed : σ) (providerValid : Bool)
    (argv : List String) (inputs : List (TickInput R)) :
    (main Z zed providerValid argv inputs).status ≠ .returned EXIT_SUCCESS := by
  by_cases hinit : (InitCamera Z zed argv).err = .SUCCESS
  · cases providerValid
    · simp only [main, hinit]
      simp only [ne_eq, not_true_eq_false, if_false]
      split_ifs <;> simp
    · rw [main_startup_of_success Z zed argv inputs hinit]
      simp
  · rw [(main_of_failure Z zed providerValid argv inputs hinit).1]
    decide

end Endless

/-- C17: when `InitCamera` succeeded and the provider is valid, then after any
finite sequence of ticks (any connection values, any `Grab` results) `main` is
still in the loop, having run one tick per input; no tick calls
`DisableTracking` or `Close`; the run goes on with any further tick from the
state reached; and no run of `main` at all returns `EXIT_SUCCESS`. -/
theorem C17_loop_never_ended_by_data {σ R : Type} [NatCast R] [Div R] (Z : ZEDCamera σ R)
    (zed : σ) (argv : List String) (inputs : List (TickInput R)) (next : TickInput R)
    (hinit : (InitCamera Z zed argv).err = .SUCCESS) :
    (main Z zed true argv inputs).status = .inLoop ∧
      (main Z zed true argv inputs).ticks.length = inputs.length ∧
      (∀ t ∈ (main Z zed true argv inputs).ticks, ∀ c ∈ t,
        c.isDisableTracking = false ∧ c.isClose = false) ∧
      (main Z zed true argv (inputs ++ [next])).status = .inLoop ∧
      (main Z zed true argv (inputs ++ [next])).ticks =
        (main Z zed true argv inputs).ticks ++
          [(tick Z (main Z zed true argv inputs).SubjectName next
            { IsConnected := (main Z zed true argv inputs).IsConnected
              Cam := (main Z zed true argv inputs).Cam }).2] ∧
      (∀ (providerValid : Bool) (args : List String) (ins : List (TickInput R)),
        (main Z zed providerValid args ins).status ≠ .returned EXIT_SUCCESS) := by
  rw [main_startup_of_success Z zed argv inputs hinit,
    main_startup_of_success Z zed argv (inputs ++ [next]) hinit]
  refine ⟨rfl, runLoop_length _ _ _ _, runLoop_no_shutdown _ _ _ _, rfl, ?_,
    fun pv args ins => main_status_ne_exit_success Z zed pv args ins⟩
  simp [runLoop_append, runLoop]

/-- Witness of C17: the two-frame recording followed for four ticks, a grab at
the end of the recording among them. -/
theorem C17_loop_never_ended_by_data_witness :
    (main (svoCamera sampleFrames 1234) ⟨0, samplePose 0⟩ true ["ZEDLiveLink"]
        [⟨true, 1⟩, ⟨true, 2⟩, ⟨true, 3⟩, ⟨false, 4⟩]).status = .inLoop ∧
      (main (svoCamera sampleFrames 1234) ⟨0, samplePose 0⟩ true ["ZEDLiveLink"]
        [⟨true, 1⟩, ⟨true, 2⟩, ⟨true, 3⟩, ⟨false, 4⟩]).ticks.length = 4 :=
  have w := C17_loop_never_ended_by_data (svoCamera sampleFrames 1234) ⟨0, samplePose 0⟩
    ["ZEDLiveLink"] [⟨true, 1⟩, ⟨true, 2⟩, ⟨true, 3⟩, ⟨false, 4⟩] ⟨true, 5⟩ (by decide)
  ⟨w.1, w.2.1⟩

/-- C18: for every argument vector, after `parseArgs` has run on the initial
values of `InitCamera` (no path, no ip, port 30000) `pathSVO` and `ip` are
never both non-empty; `pathSVO` is non-empty only if `input_type` was set to
`SVO`; `ip` is non-empty only if `input_type` was set to `STREAM`; and whenever
the resolution differs from the one on entry, `pathSVO`, `ip` and `input_type`
are as on entry. -/
theorem C18_input_sources_exclusive (argv : List String) (param : SL_InitParameters) :
    ¬((parseArgs argv param "" "" 30000).pathSVO ≠ "" ∧
        (parseArgs argv param "" "" 30000).ip ≠ "") ∧
      ((parseArgs argv param "" "" 30000).pathSVO ≠ "" →
        (parseArgs argv param "" "" 30000).param.input_type = .SVO) ∧
      ((parseArgs argv param "" "" 30000).ip ≠ "" →
        (parseArgs argv param "" "" 30000).param.input_type = .STREAM) ∧
      ((parseArgs argv param "" "" 30000).param.resolution ≠ param.resolution →
        (parseArgs argv param "" "" 30000).pathSVO = "" ∧
          (parseArgs argv param "" "" 30000).ip = "" ∧
          (parseArgs argv param "" "" 30000).param.input_type = param.input_type) := by
  unfold parseArgs
  simp only []
  split_ifs <;> simp

/-- Witness of C18: a recorded file, an address and a resolution token. -/
theorem C18_input_sources_exclusive_witness :
    (parseArgs ["ZEDLiveLink", "capture.svo"] initParamsAtParse "" "" 30000).param.input_type
        = .SVO ∧
      (parseArgs ["ZEDLiveLink", "10.0.0.5"] initParamsAtParse "" "" 30000).param.input_type
        = .STREAM ∧
      ((parseArgs ["ZEDLiveLink", "VGA"] initParamsAtParse "" "" 30000).pathSVO = "" ∧
        (parseArgs ["ZEDLiveLink", "VGA"] initParamsAtParse "" "" 30000).ip = "" ∧
        (parseArgs ["ZEDLiveLink", "VGA"] initParamsAtParse "" "" 30000).param.input_type
          = initParamsAtParse.input_type) :=
  ⟨(C18_input_sources_exclusive ["ZEDLiveLink", "capture.svo"] initParamsAtParse).2.1
      (by decide),
    (C18_input_sources_exclusive ["ZEDLiveLink", "10.0.0.5"] initParamsAtParse).2.2.1
      (by decide),
    (C18_input_sources_exclusive ["ZEDLiveLink", "VGA"] initParamsAtParse).2.2.2
      (by decide)⟩

/-- C19: `parseArgs` leaves `camera_fps`, `depth_mode`, `coordinate_system`,
`coordinate_unit` (and `sdk_verbose`) as they were, whatever the arguments; so
every `Open` call of `InitCamera` carries 30 frames per second, `ULTRA`,
`LEFT_HANDED_Z_UP` and `CENTIMETER`, also when the resolution is overridden, and
there is exactly one such call when the camera is created. -/
theorem C19_device_settings_untouched {σ R : Type} (Z : ZEDCamera σ R) (zed : σ)
    (argv : List String) (param : SL_InitParameters) (pathSVO ip : String) (port : Int) :
    ((parseArgs argv param pathSVO ip port).param.camera_fps = param.camera_fps ∧
        (parseArgs argv param pathSVO ip port).param.depth_mode = param.depth_mode ∧
        (parseArgs argv param pathSVO ip port).param.coordinate_system =
          param.coordinate_system ∧
        (parseArgs argv param pathSVO ip port).param.coordinate_unit =
          param.coordinate_unit ∧
        (parseArgs argv param pathSVO ip port).param.sdk_verbose = param.sdk_verbose) ∧
      (∀ (q : SL_InitParameters) (path addr : String) (pt : Int),
        Call.Open q path addr pt ∈ (InitCamera Z zed argv).calls →
          q.camera_fps = 30 ∧ q.depth_mode = .ULTRA ∧
            q.coordinate_system = .LEFT_HANDED_Z_UP ∧ q.coordinate_unit = .CENTIMETER) ∧
      ((createOutcome Z zed).1 = true →
        (InitCamera Z zed argv).calls.countP Call.isOpen = 1) := by
  have hkeep : ∀ (q : SL_InitParameters) (path addr : String) (pt : Int),
      (parseArgs argv q path addr pt).param.camera_fps = q.camera_fps ∧
        (parseArgs argv q path addr pt).param.depth_mode = q.depth_mode ∧
        (parseArgs argv q path addr pt).param.coordinate_system = q.coordinate_system ∧
        (parseArgs argv q path addr pt).param.coordinate_unit = q.coordinate_unit ∧
        (parseArgs argv q path addr pt).param.sdk_verbose = q.sdk_verbose := by
    intro q path addr pt
    unfold parseArgs
    simp only []
    split_ifs <;> simp
  have hfilter := InitCamera_calls_filter_isOpen Z zed argv
  refine ⟨hkeep _ _ _ _, ?_, ?_⟩
  · intro q path addr pt hmem
    have hin : Call.Open q path addr pt ∈ (InitCamera Z zed argv).calls.filter Call.isOpen :=
      List.mem_filter.2 ⟨hmem, rfl⟩
    rw [hfilter] at hin
    split_ifs at hin
    · simp only [List.mem_singleton, Call.Open.injEq] at hin
      obtain ⟨rfl, _, _, _⟩ := hin
      obtain ⟨k1, k2, k3, k4, _⟩ := hkeep initParamsAtParse "" "" 30000
      exact ⟨k1, k2, k3, k4⟩
    · simp at hin
  · intro hcreated
    rw [List.countP_eq_length_filter, hfilter, if_pos hcreated]
    rfl

/-- Witness of C19: with the resolution overridden to `HD2K` the camera is
opened once. -/
theorem C19_device_settings_untouched_witness :
    (InitCamera (svoCamera sampleFrames 1234) ⟨0, samplePose 0⟩
      ["ZEDLiveLink", "HD2K"]).calls.countP Call.isOpen = 1 :=
  (C19_device_settings_untouched (svoCamera sampleFrames 1234) ⟨0, samplePose 0⟩
    ["ZEDLiveLink", "HD2K"] initParamsAtParse "" "" 30000).2.2 rfl

end ZEDLiveLink
